import Mathlib

/-!
# Push-notification client of the desktop sync client

A shallow embedding of `src/libsync/pushnotifications.cpp`.

The client object is a record of its member variables.  Everything the client
does to the outside world (a signal it emits, a call on its `QWebSocket`) is
appended to the `log` field of the record, in program order, so that a member
function becomes a function `Client → Client`.  A member function that
dereferences `_webSocket` without a null check returns `Option Client`, with
`none` standing for the failed `Q_ASSERT` / null dereference.

Callbacks (socket signals, timer timeouts) are the constructors of `Event`;
`enabled` says when the Qt event loop can deliver one, `step` runs the slot
connected to it.
-/

namespace PushNotifications

/-! ## Data model -/

/-- The constant `MAX_ALLOWED_FAILED_AUTHENTICATION_ATTEMPTS` of the anonymous namespace. -/
def MAX_ALLOWED_FAILED_AUTHENTICATION_ATTEMPTS : Nat := 3

/-- The enumeration `QAbstractSocket::SocketError` of Qt 5. -/
inductive SocketError
  | ConnectionRefusedError
  | RemoteHostClosedError
  | HostNotFoundError
  | SocketAccessError
  | SocketResourceError
  | SocketTimeoutError
  | DatagramTooLargeError
  | NetworkError
  | AddressInUseError
  | SocketAddressNotAvailableError
  | UnsupportedSocketOperationError
  | UnfinishedSocketOperationError
  | ProxyAuthenticationRequiredError
  | SslHandshakeFailedError
  | ProxyConnectionRefusedError
  | ProxyConnectionClosedError
  | ProxyConnectionTimeoutError
  | ProxyNotFoundError
  | ProxyProtocolError
  | OperationError
  | SslInternalError
  | SslInvalidUserDataError
  | TemporaryError
  | UnknownSocketError
  deriving DecidableEq, Repr

/-- A `QSslError`; the client only logs it, so its error code is all that is kept. -/
structure QSslError where
  code : Nat
  deriving DecidableEq, Repr

/-- The part of `Account` the client reads: the credentials (`credentials()->user()`,
`credentials()->password()`) and the capability `pushNotificationsWebSocketUrl()`.
`id` stands for the address of the account object, which is what the signals carry. -/
structure Account where
  id : Nat
  user : String
  password : String
  pushNotificationsWebSocketUrl : String
  deriving DecidableEq, Repr

/-- The signals of `PushNotifications`. -/
inductive Signal
  | ready
  | connectionLost
  | authenticationFailed
  | filesChanged (account : Account)
  | activitiesChanged (account : Account)
  | notificationsChanged (account : Account)
  deriving DecidableEq, Repr

/-- A byte string (`QByteArray`). -/
abbrev Bytes := List (Fin 256)

/-- What the client does to the outside world: it emits a signal, or it calls
`sendTextMessage`, `ping`, `close` or `open` on its web socket. -/
inductive Effect
  | emit (signal : Signal)
  | sendTextMessage (message : String)
  | ping (payload : Bytes)
  | close
  | openUrl (url : String)
  deriving DecidableEq, Repr

/-- The conversion of a `uint32_t` to the `int` that `QTimer::setInterval` takes:
values from 2^31 on become negative. -/
def uint32ToInt (n : Nat) : Int :=
  if n % 2 ^ 32 < 2 ^ 31 then ((n % 2 ^ 32 : Nat) : Int) else ((n % 2 ^ 32 : Nat) : Int) - 2 ^ 32

/-- The state of a `QTimer` the client depends on: whether a timeout is pending
(`active`), its interval in milliseconds, an `int`, and whether it is single-shot. -/
structure QTimer where
  active : Bool := false
  interval : Int := 0
  singleShot : Bool := false
  deriving DecidableEq, Repr

namespace QTimer

/-- Method `QTimer::stop()`. -/
def stop (t : QTimer) : QTimer := { t with active := false }

/-- Method `QTimer::start()`: the timer is started with its interval; Qt refuses a
negative interval, and then no timeout is pending. -/
def start (t : QTimer) : QTimer := { t with active := decide (0 ≤ t.interval) }

/-- Method `QTimer::setInterval(int msec)`: a running timer is started again with the
new interval, which Qt refuses when it is negative. -/
def setInterval (t : QTimer) (msec : Int) : QTimer :=
  { t with interval := msec, active := t.active && decide (0 ≤ msec) }

/-- Method `QTimer::setSingleShot(b)`. -/
def setSingleShot (t : QTimer) (b : Bool) : QTimer := { t with singleShot := b }

/-- The timer reaches its interval: a single-shot timer is stopped before its
`timeout` signal is emitted, a repeating one stays active. -/
def expire (t : QTimer) : QTimer := if t.singleShot then t.stop else t

end QTimer

/-- The `QWebSocket` owned by the client, as far as the client shapes it: which of
its signals are connected to slots of the client.  `callbacksConnected` covers the
five connections made in `openWebSocket` (`error`, `sslErrors`, `connected`,
`disconnected`, `pong`), `textMessageReceivedConnected` the one made in
`onWebSocketConnected`. -/
structure QWebSocket where
  callbacksConnected : Bool := false
  textMessageReceivedConnected : Bool := false
  deriving DecidableEq, Repr

/-- The member variables of a `PushNotifications` object, its address (`self`), and
the log of its effects. -/
structure Client where
  /-- the address of the object, `this` -/
  self : Nat
  /-- member `_account` -/
  account : Account
  /-- member `_webSocket`, `none` for `nullptr` -/
  webSocket : Option QWebSocket
  /-- member `_failedAuthenticationAttemptsCount` -/
  failedAuthenticationAttemptsCount : Nat
  /-- member `_reconnectTimer`, `none` for `nullptr` -/
  reconnectTimer : Option QTimer
  /-- how many lambdas are connected to `_reconnectTimer->timeout` -/
  reconnectTimerConnections : Nat
  /-- member `_reconnectTimerInterval`, the `uint32_t` given to `setReconnectTimerInterval` -/
  reconnectTimerInterval : Nat
  /-- member `_isReady` -/
  isReady : Bool
  /-- member `_pingTimer` -/
  pingTimer : QTimer
  /-- whether `_pingTimer.timeout` is connected to `pingWebSocketServer` -/
  pingTimerConnected : Bool
  /-- member `_pingTimeoutInterval`, the `uint32_t` given to `setPingTimeoutInterval` -/
  pingTimeoutInterval : Nat
  /-- member `_pingTimeoutTimer` -/
  pingTimeoutTimer : QTimer
  /-- whether `_pingTimeoutTimer.timeout` is connected to `onPingTimedOut` -/
  pingTimeoutTimerConnected : Bool
  /-- member `_timeoutPongReceivedFromWebSocketServer` -/
  timeoutPongReceivedFromWebSocketServer : Bool
  /-- everything emitted and every call made on the socket so far, oldest first -/
  log : List Effect
  deriving DecidableEq, Repr

/-- Modelled from the spec: the default member initialisers live in
`pushnotifications.h`, which is not among the sources.  The constructor of the
`.cpp` only stores `account`.  Both pointers start as `nullptr` (the code tests
`!_webSocket` and `!_reconnectTimer` before creating them), the client starts not
ready with a zero failure counter, and the two default intervals are parameters. -/
def construct (self : Nat) (account : Account)
    (reconnectTimerInterval pingTimeoutInterval : Nat) : Client :=
  { self := self
    account := account
    webSocket := none
    failedAuthenticationAttemptsCount := 0
    reconnectTimer := none
    reconnectTimerConnections := 0
    reconnectTimerInterval := reconnectTimerInterval
    isReady := false
    pingTimer := {}
    pingTimerConnected := false
    pingTimeoutInterval := pingTimeoutInterval
    pingTimeoutTimer := {}
    pingTimeoutTimerConnected := false
    timeoutPongReceivedFromWebSocketServer := false
    log := [] }

/-! ## Member functions -/

/-- Append one effect to the log. -/
def perform (s : Client) (e : Effect) : Client := { s with log := s.log ++ [e] }

/-- The statement `emit signal()`. -/
def emit (s : Client) (signal : Signal) : Client := perform s (Effect.emit signal)

/-- Member function `PushNotifications::closeWebSocket`. -/
def closeWebSocket (s : Client) : Client :=
  let s := { s with pingTimer := s.pingTimer.stop }
  let s := { s with pingTimeoutTimer := s.pingTimeoutTimer.stop }
  let s := { s with isReady := false }
  let s := match s.reconnectTimer with
    | some t => { s with reconnectTimer := some t.stop }
    | none => s
  match s.webSocket with
  | some _ => perform s Effect.close
  | none => s

/-- Member function `PushNotifications::openWebSocket`. -/
def openWebSocket (s : Client) : Client :=
  let webSocketUrl := s.account.pushNotificationsWebSocketUrl
  let s := match s.webSocket with
    | none => { s with webSocket := some {} }
    | some _ => s
  match s.webSocket with
  | some ws =>
    let s := { s with webSocket := some { ws with callbacksConnected := true } }
    perform s (Effect.openUrl webSocketUrl)
  | none => s

/-- Member function `PushNotifications::reconnectToWebSocket`. -/
def reconnectToWebSocket (s : Client) : Client :=
  openWebSocket (closeWebSocket s)

/-- Member function `PushNotifications::setup`. -/
def setup (s : Client) : Client :=
  let s := { s with failedAuthenticationAttemptsCount := 0 }
  reconnectToWebSocket s

/-- Member function `PushNotifications::authenticateOnWebSocket`; `_webSocket` is dereferenced
unchecked. -/
def authenticateOnWebSocket (s : Client) : Option Client :=
  let username := s.account.user
  let password := s.account.password
  match s.webSocket with
  | none => none
  | some _ =>
    let s := perform s (Effect.sendTextMessage username)
    let s := perform s (Effect.sendTextMessage password)
    some s

/-- Member function `PushNotifications::onWebSocketConnected`.  `QObject::connect` with a null sender
fails without effect. -/
def onWebSocketConnected (s : Client) : Option Client :=
  let s := match s.webSocket with
    | some ws => { s with webSocket := some { ws with textMessageReceivedConnected := true } }
    | none => s
  authenticateOnWebSocket s

/-- Member function `PushNotifications::onWebSocketDisconnected`: only logs. -/
def onWebSocketDisconnected (s : Client) : Client := s

/-- Member function `PushNotifications::startPingTimeoutTimer`. -/
def startPingTimeoutTimer (s : Client) : Client :=
  let s := { s with pingTimeoutTimer := s.pingTimeoutTimer.stop }
  let s := { s with pingTimer := s.pingTimer.setInterval (uint32ToInt s.pingTimeoutInterval) }
  let s := { s with pingTimer := s.pingTimer.setSingleShot true }
  let s := { s with pingTimerConnected := true }
  { s with pingTimer := s.pingTimer.start }

/-- Member function `PushNotifications::startPingTimedOutTimer`. -/
def startPingTimedOutTimer (s : Client) : Client :=
  let s := { s with
    pingTimeoutTimer := s.pingTimeoutTimer.setInterval (uint32ToInt s.pingTimeoutInterval) }
  let s := { s with pingTimeoutTimer := s.pingTimeoutTimer.setSingleShot true }
  let s := { s with pingTimeoutTimerConnected := true }
  { s with pingTimeoutTimer := s.pingTimeoutTimer.start }

/-- The bytes of a pointer in memory: eight bytes, least significant first
(a 64-bit little-endian target). -/
def pointerBytes (address : Nat) : Bytes :=
  (List.range 8).map fun i => Fin.ofNat (address / 256 ^ i)

/-- Member function `PushNotifications::timeoutPingPayload`: the bytes of `this`. -/
def timeoutPingPayload (s : Client) : Bytes := pointerBytes s.self

/-- Member function `PushNotifications::tryReconnectToWebSocket`. -/
def tryReconnectToWebSocket (s : Client) : Bool × Client :=
  let s := { s with failedAuthenticationAttemptsCount := s.failedAuthenticationAttemptsCount + 1 }
  if s.failedAuthenticationAttemptsCount ≥ MAX_ALLOWED_FAILED_AUTHENTICATION_ATTEMPTS then
    (false, s)
  else
    let t : QTimer := match s.reconnectTimer with
      | none => {}
      | some t => t
    let t := t.setInterval (uint32ToInt s.reconnectTimerInterval)
    let t := t.setSingleShot true
    let s := { s with reconnectTimerConnections := s.reconnectTimerConnections + 1 }
    let t := t.start
    (true, { s with reconnectTimer := some t })

/-- Member function `PushNotifications::handleAuthenticated`. -/
def handleAuthenticated (s : Client) : Client :=
  let s := { s with failedAuthenticationAttemptsCount := 0 }
  let s := { s with isReady := true }
  let s := startPingTimeoutTimer s
  emit s Signal.ready

/-- Member function `PushNotifications::handleNotifyFile`. -/
def handleNotifyFile (s : Client) : Client := emit s (Signal.filesChanged s.account)

/-- Member function `PushNotifications::handleInvalidCredentials`. -/
def handleInvalidCredentials (s : Client) : Client :=
  match tryReconnectToWebSocket s with
  | (true, s) => s
  | (false, s) =>
    let s := closeWebSocket s
    emit s Signal.authenticationFailed

/-- Member function `PushNotifications::handleNotifyNotification`. -/
def handleNotifyNotification (s : Client) : Client :=
  emit s (Signal.notificationsChanged s.account)

/-- Member function `PushNotifications::handleNotifyActivity`. -/
def handleNotifyActivity (s : Client) : Client :=
  emit s (Signal.activitiesChanged s.account)

/-- Member function `PushNotifications::onWebSocketTextMessageReceived`. -/
def onWebSocketTextMessageReceived (s : Client) (message : String) : Client :=
  if message = "notify_file" then
    handleNotifyFile s
  else if message = "notify_activity" then
    handleNotifyActivity s
  else if message = "notify_notification" then
    handleNotifyNotification s
  else if message = "authenticated" then
    handleAuthenticated s
  else if message = "err: Invalid credentials" then
    handleInvalidCredentials s
  else
    s

/-- Member function `PushNotifications::onWebSocketError`. -/
def onWebSocketError (s : Client) (error : SocketError) : Client :=
  if error = SocketError.UnfinishedSocketOperationError then
    s
  else
    let s := { s with isReady := false }
    emit s Signal.connectionLost

/-- Member function `PushNotifications::onWebSocketSslErrors`. -/
def onWebSocketSslErrors (s : Client) (_errors : List QSslError) : Client :=
  let s := { s with isReady := false }
  emit s Signal.authenticationFailed

/-- Member function `PushNotifications::setReconnectTimerInterval`; the parameter is a
`uint32_t`. -/
def setReconnectTimerInterval (s : Client) (interval : Nat) : Client :=
  { s with reconnectTimerInterval := interval % 2 ^ 32 }

/-- Member function `PushNotifications::isReady`. -/
def isReady (s : Client) : Bool := s.isReady

/-- Member function `PushNotifications::handleTimeoutPong`. -/
def handleTimeoutPong (s : Client) (payload : Bytes) : Client :=
  let expectedPingPayload := timeoutPingPayload s
  if payload ≠ expectedPingPayload then
    s
  else
    let s := { s with timeoutPongReceivedFromWebSocketServer := true }
    startPingTimeoutTimer s

/-- Member function `PushNotifications::onWebSocketPongReceived`. -/
def onWebSocketPongReceived (s : Client) (_elapsedTime : Nat) (payload : Bytes) : Client :=
  handleTimeoutPong s payload

/-- Member function `PushNotifications::pingWebSocketServer`; `Q_ASSERT(_webSocket)` and the unchecked
`_webSocket->ping` give `none` when there is no socket. -/
def pingWebSocketServer (s : Client) : Option Client :=
  match s.webSocket with
  | none => none
  | some _ =>
    let s := { s with timeoutPongReceivedFromWebSocketServer := false }
    let s := perform s (Effect.ping (timeoutPingPayload s))
    some (startPingTimedOutTimer s)

/-- Member function `PushNotifications::onPingTimedOut`. -/
def onPingTimedOut (s : Client) : Client :=
  if s.timeoutPongReceivedFromWebSocketServer then
    s
  else
    setup s

/-- Member function `PushNotifications::setPingTimeoutInterval`; the parameter is a
`uint32_t`. -/
def setPingTimeoutInterval (s : Client) (timeoutInterval : Nat) : Client :=
  let s := { s with pingTimeoutInterval := timeoutInterval % 2 ^ 32 }
  startPingTimeoutTimer s

/-! ## Events -/

/-- A call of a public operation by the owner, a signal of the web socket, or the
timeout of one of the three timers. -/
inductive Event
  | setup
  | setReconnectTimerInterval (interval : Nat)
  | setPingTimeoutInterval (timeoutInterval : Nat)
  | webSocketConnected
  | webSocketDisconnected
  | webSocketTextMessageReceived (message : String)
  | webSocketError (error : SocketError)
  | webSocketSslErrors (errors : List QSslError)
  | webSocketPong (elapsedTime : Nat) (payload : Bytes)
  | pingTimerTimeout
  | pingTimeoutTimerTimeout
  | reconnectTimerTimeout
  deriving DecidableEq, Repr

/-- Whether the five signals connected in `openWebSocket` can reach the client. -/
def callbacksConnected (s : Client) : Bool :=
  match s.webSocket with
  | some ws => ws.callbacksConnected
  | none => false

/-- Whether `textMessageReceived` can reach the client. -/
def textMessageReceivedConnected (s : Client) : Bool :=
  match s.webSocket with
  | some ws => ws.textMessageReceivedConnected
  | none => false

/-- Whether `_reconnectTimer` exists and is running. -/
def reconnectTimerActive (s : Client) : Bool :=
  match s.reconnectTimer with
  | some t => t.active
  | none => false

/-- When the event loop can deliver an event: the public operations always, a
socket signal when the socket exists and the signal is connected, a timeout when
the timer is running. -/
def enabled (s : Client) : Event → Bool
  | Event.setup => true
  | Event.setReconnectTimerInterval _ => true
  | Event.setPingTimeoutInterval _ => true
  | Event.webSocketConnected => callbacksConnected s
  | Event.webSocketDisconnected => callbacksConnected s
  | Event.webSocketTextMessageReceived _ => textMessageReceivedConnected s
  | Event.webSocketError _ => callbacksConnected s
  | Event.webSocketSslErrors _ => callbacksConnected s
  | Event.webSocketPong _ _ => callbacksConnected s
  | Event.pingTimerTimeout => s.pingTimer.active
  | Event.pingTimeoutTimerTimeout => s.pingTimeoutTimer.active
  | Event.reconnectTimerTimeout => reconnectTimerActive s

/-- The `_pingTimer` times out: the slot `pingWebSocketServer` runs if connected. -/
def pingTimerTimeout (s : Client) : Option Client :=
  let s := { s with pingTimer := s.pingTimer.expire }
  if s.pingTimerConnected then pingWebSocketServer s else some s

/-- The `_pingTimeoutTimer` times out: the slot `onPingTimedOut` runs if connected. -/
def pingTimeoutTimerTimeout (s : Client) : Client :=
  let s := { s with pingTimeoutTimer := s.pingTimeoutTimer.expire }
  if s.pingTimeoutTimerConnected then onPingTimedOut s else s

/-- The `_reconnectTimer` times out: every lambda connected to its `timeout` in
`tryReconnectToWebSocket` runs `reconnectToWebSocket` once. -/
def reconnectTimerTimeout (s : Client) : Client :=
  match s.reconnectTimer with
  | none => s
  | some t =>
    let s := { s with reconnectTimer := some t.expire }
    Nat.iterate reconnectToWebSocket s.reconnectTimerConnections s

/-- Run the operation or slot of an event; `none` is a crash (null socket). -/
def step (s : Client) : Event → Option Client
  | Event.setup => some (setup s)
  | Event.setReconnectTimerInterval i => some (setReconnectTimerInterval s i)
  | Event.setPingTimeoutInterval i => some (setPingTimeoutInterval s i)
  | Event.webSocketConnected => onWebSocketConnected s
  | Event.webSocketDisconnected => some (onWebSocketDisconnected s)
  | Event.webSocketTextMessageReceived m => some (onWebSocketTextMessageReceived s m)
  | Event.webSocketError e => some (onWebSocketError s e)
  | Event.webSocketSslErrors l => some (onWebSocketSslErrors s l)
  | Event.webSocketPong t p => some (onWebSocketPongReceived s t p)
  | Event.pingTimerTimeout => pingTimerTimeout s
  | Event.pingTimeoutTimerTimeout => some (pingTimeoutTimerTimeout s)
  | Event.reconnectTimerTimeout => some (reconnectTimerTimeout s)

/-- Deliver a sequence of events, each of which must be enabled when its turn comes. -/
def run (s : Client) : List Event → Option Client
  | [] => some s
  | e :: es => if enabled s e then (step s e).bind fun s => run s es else none

/-- The states a freshly constructed client can get into. -/
inductive Reachable : Client → Prop
  | construct (self : Nat) (account : Account) (reconnectTimerInterval pingTimeoutInterval : Nat) :
      Reachable (construct self account reconnectTimerInterval pingTimeoutInterval)
  | step {s s' : Client} (e : Event) :
      Reachable s → enabled s e = true → step s e = some s' → Reachable s'

/-- The signals in a list of effects, in order. -/
def signals : List Effect → List Signal
  | [] => []
  | Effect.emit signal :: es => signal :: signals es
  | _ :: es => signals es

/-- The text messages sent in a list of effects, in order. -/
def textMessages : List Effect → List String
  | [] => []
  | Effect.sendTextMessage m :: es => m :: textMessages es
  | _ :: es => textMessages es

/-- The payloads of the pings sent in a list of effects, in order. -/
def pingPayloads : List Effect → List Bytes
  | [] => []
  | Effect.ping payload :: es => payload :: pingPayloads es
  | _ :: es => pingPayloads es

/-- The log of `n` consecutive runs of `reconnectToWebSocket` on a client that has a
socket: `n` times a `close` followed by an `open`. -/
def closeOpenLog (url : String) : Nat → List Effect
  | 0 => []
  | n + 1 => Effect.close :: Effect.openUrl url :: closeOpenLog url n

/-- While the reply-timeout timer runs, no pong has been accepted since the ping that
started it, its `timeout` is connected to `onPingTimedOut`, and the socket exists. -/
def PingTimeoutInv (s : Client) : Prop :=
  s.pingTimeoutTimer.active = true →
    s.timeoutPongReceivedFromWebSocketServer = false ∧ s.pingTimeoutTimerConnected = true ∧
      s.webSocket.isSome = true

/-- The reply of the server to rejected credentials. -/
def invalidCredentialsMessage : String := "err: Invalid credentials"

/-- One more authentication attempt that the server rejects: the reconnect timer
times out, the transport connects, the server answers with the rejection. -/
def rejectedRetry : List Event :=
  [Event.reconnectTimerTimeout, Event.webSocketConnected,
    Event.webSocketTextMessageReceived invalidCredentialsMessage]

/-- An account used in the concrete runs below. -/
def demoAccount : Account :=
  { id := 1, user := "alice", password := "secret",
    pushNotificationsWebSocketUrl := "wss://cloud.example/push/ws" }

/-- A freshly constructed client of `demoAccount`, at address 4096. -/
def demoClient : Client := construct 4096 demoAccount 20000 30000

/-- The events up to the first heartbeat probe of a fresh client. -/
def firstProbe : List Event :=
  [Event.setup, Event.webSocketConnected, Event.webSocketTextMessageReceived "authenticated",
    Event.pingTimerTimeout]

/-- The state of `demoClient` after `firstProbe`: ready, probe sent, the reply-timeout
timer running. -/
def demoProbing : Client := (run demoClient firstProbe).getD demoClient

/-- The state of `demoClient` once it is ready. -/
def demoReady : Client :=
  (run demoClient [Event.setup, Event.webSocketConnected,
    Event.webSocketTextMessageReceived "authenticated"]).getD demoClient

/-- The state of `demoReady` after a first probe. -/
def demoProbe1 : Client := (pingWebSocketServer demoReady).getD demoReady

/-- The state of `demoProbe1` after the reply to the first probe. -/
def demoPonged : Client :=
  (run demoProbe1 [Event.webSocketPong 5 (timeoutPingPayload demoReady)]).getD demoProbe1

/-- The state of `demoPonged` after a second probe. -/
def demoProbe2 : Client := (pingWebSocketServer demoPonged).getD demoPonged

/-- The payload of the first heartbeat probe of `demoClient`. -/
def demoPayload : Bytes := [0, 16, 0, 0, 0, 0, 0, 0]

/-- The first probe, its reply, and the second probe, which is then outstanding. -/
def secondProbe : List Event :=
  firstProbe ++ [Event.webSocketPong 5 demoPayload, Event.pingTimerTimeout]

/-- While the idle timer runs it is single-shot, and the idle timer and the
reply-timeout timer do not run at the same time. -/
def HeartbeatInv (s : Client) : Prop :=
  (s.pingTimer.active = true → s.pingTimer.singleShot = true) ∧
    ¬(s.pingTimer.active = true ∧ s.pingTimeoutTimer.active = true)

/-- The state of `demoClient` while it authenticates: credentials sent, no answer yet. -/
def demoAuthenticating : Client :=
  (run demoClient [Event.setup, Event.webSocketConnected]).getD demoClient

/-- The state of `demoClient` after one rejected attempt, when the retry has sent the
credentials again. -/
def demoRetrying : Client :=
  (run demoClient [Event.setup, Event.webSocketConnected,
    Event.webSocketTextMessageReceived invalidCredentialsMessage,
    Event.reconnectTimerTimeout, Event.webSocketConnected]).getD demoClient

/-- An account whose capabilities give no push-notification endpoint. -/
def noEndpointAccount : Account :=
  { id := 2, user := "bob", password := "hunter2", pushNotificationsWebSocketUrl := "" }

/-- A freshly constructed client of `noEndpointAccount`. -/
def noEndpointClient : Client := construct 8192 noEndpointAccount 20000 30000

/-- While the idle timer runs, its `timeout` is connected to `pingWebSocketServer`, it
is single-shot, and its interval is `_pingTimeoutInterval` narrowed to `int`, which is
not negative. -/
def IdleTimerInv (s : Client) : Prop :=
  s.pingTimer.active = true →
    s.pingTimerConnected = true ∧ s.pingTimer.singleShot = true ∧
      s.pingTimer.interval = uint32ToInt s.pingTimeoutInterval ∧
      0 ≤ uint32ToInt s.pingTimeoutInterval

/-- While the client is ready and `_pingTimeoutInterval` narrowed to `int` is not
negative, the idle timer or the reply-timeout timer runs. -/
def ReadyInv (s : Client) : Prop :=
  s.isReady = true → 0 ≤ uint32ToInt s.pingTimeoutInterval →
    s.pingTimer.active = true ∨ s.pingTimeoutTimer.active = true

/-- The events of two rejected attempts of a fresh client, up to the second start of
the reconnect timer. -/
def twoRejections : List Event :=
  [Event.setup, Event.webSocketConnected,
    Event.webSocketTextMessageReceived invalidCredentialsMessage,
    Event.reconnectTimerTimeout, Event.webSocketConnected,
    Event.webSocketTextMessageReceived invalidCredentialsMessage]

/-- The state of `demoClient` after `twoRejections`: the reconnect timer was started
twice and is running. -/
def demoTwiceRejected : Client := (run demoClient twoRejections).getD demoClient

/-- An interval of 3000000000 ms: a `uint32_t`, but not an `int`. -/
def longInterval : Nat := 3000000000

/-- The state of `demoClient` when its heartbeat interval is set to `longInterval`
and it then becomes ready. -/
def demoLongHeartbeat : Client :=
  (run demoClient [Event.setPingTimeoutInterval longInterval, Event.setup,
    Event.webSocketConnected, Event.webSocketTextMessageReceived "authenticated"]).getD demoClient

/-- The state of `demoClient` when its reconnect interval is set to `longInterval` and
its first authentication attempt is then rejected. -/
def demoLongReconnect : Client :=
  (run demoClient [Event.setReconnectTimerInterval longInterval, Event.setup,
    Event.webSocketConnected,
    Event.webSocketTextMessageReceived invalidCredentialsMessage]).getD demoClient

/-- The state of `demoClient` when `setPingTimeoutInterval(0)` is its first call. -/
def demoIntervalFirst : Client :=
  (run demoClient [Event.setPingTimeoutInterval 0]).getD demoClient

end PushNotifications

/-!
# User status of the desktop sync client

A shallow embedding of `src/gui/userstatus.cpp`: the mapping of the status string of
the server to `UserStatus::Status`, and the text shown for it.
-/

namespace OCC

/-- The enumeration `UserStatus::Status`, with the enumerators `userstatus.cpp` uses. -/
inductive UserStatus.Status
  | Online
  | DoNotDisturb
  | Away
  | Offline
  | Invisible
  deriving DecidableEq, Repr

/-- A `QJsonValue`.  The client reads strings and objects only; of a number just an
index of its value is kept. -/
inductive QJsonValue
  | null
  | bool (b : Bool)
  | double (d : Nat)
  | string (s : String)
  | array (a : List QJsonValue)
  | object (o : List (String × QJsonValue))
  | undefined

/-- A `QJsonObject`: its members, each key once. -/
abbrev QJsonObject := List (String × QJsonValue)

/-- Method `QJsonObject::value(key)`: `Undefined` when the key is absent. -/
def QJsonObject.value (o : QJsonObject) (key : String) : QJsonValue :=
  match o.lookup key with
  | some v => v
  | none => QJsonValue.undefined

/-- Method `QJsonValue::toObject(defaultValue)`: the default when the value is not an
object.  `QJsonValue::toObject()` is the case of the empty default. -/
def QJsonValue.toObject (v : QJsonValue) (defaultValue : QJsonObject := []) : QJsonObject :=
  match v with
  | QJsonValue.object o => o
  | _ => defaultValue

/-- Method `QJsonValue::toString()`: the null string when the value is not a string. -/
def QJsonValue.toString (v : QJsonValue) : String :=
  match v with
  | QJsonValue.string s => s
  | _ => ""

/-- A `QJsonDocument`: empty, an array or an object. -/
inductive QJsonDocument
  | empty
  | fromArray (a : List QJsonValue)
  | fromObject (o : QJsonObject)

/-- Method `QJsonDocument::object()`: the empty object when the document is not an
object. -/
def QJsonDocument.object (json : QJsonDocument) : QJsonObject :=
  match json with
  | QJsonDocument.fromObject o => o
  | _ => []

/-- The lower-case form of a character as far as it matters here: the letters `A` to
`Z`. -/
def toLowerChar (c : Char) : Char :=
  if 'A' ≤ c ∧ c ≤ 'Z' then Char.ofNat (c.toNat + 32) else c

/-- Method `QString::toLower()` on the letters `A` to `Z`.  Qt also lower-cases letters
outside ASCII; none of them becomes a letter of the five status names except the
Kelvin sign (to `k`, which is in none of them) and the dotted capital `I`, which
becomes `i` followed by a combining dot, so that the lookup in `stringToEnum` gives
the same result. -/
def toLower (s : String) : String := ⟨s.data.map toLowerChar⟩

/-- Method `QChar::isSpace()`: the controls 9 to 13 and 0x85, and the characters of the
Unicode categories Zs, Zl and Zp. -/
def isSpace (c : Char) : Bool :=
  let u := c.toNat
  u == 0x20 || (0x09 ≤ u && u ≤ 0x0d) || u == 0x85 || u == 0xa0 || u == 0x1680 ||
    (0x2000 ≤ u && u ≤ 0x200a) || u == 0x2028 || u == 0x2029 || u == 0x202f ||
    u == 0x205f || u == 0x3000

/-- Method `QString::trimmed()`: the string without the white space at its start and
at its end. -/
def trimmed (s : String) : String :=
  ⟨((s.data.dropWhile isSpace).reverse.dropWhile isSpace).reverse⟩

/-- The member variables `_status` and `_message` of a `UserStatus` object, and how
often it has emitted `fetchUserStatusFinished`. -/
structure UserStatus where
  /-- member `_status` -/
  storedStatus : UserStatus.Status
  /-- member `_message` -/
  storedMessage : String
  /-- the number of emissions of `fetchUserStatusFinished` so far -/
  fetchUserStatusFinishedCount : Nat
  deriving DecidableEq, Repr

namespace UserStatus

/-- Member function `UserStatus::stringToEnum`, with the hash `preDefinedStatus` as
the list of its entries. -/
def stringToEnum (status : String) : Status :=
  let preDefinedStatus : List (String × Status) :=
    [("online", Status.Online),
     ("dnd", Status.DoNotDisturb),
     ("away", Status.Away),
     ("offline", Status.Offline),
     ("invisible", Status.Invisible)]
  let statusKey := if status = "" then "online" else toLower status
  match preDefinedStatus.lookup statusKey with
  | some s => s
  | none => Status.Online

/-- Member function `UserStatus::enumToUserString`; `tr` is the translation of the
user interface, the identity when no translation is installed. -/
def enumToUserString (tr : String → String) (status : Status) : String :=
  match status with
  | Status.Away => tr "Away"
  | Status.DoNotDisturb => tr "Do not disturb"
  | Status.Invisible => tr "Offline"
  | Status.Offline => tr "Offline"
  | _ => tr "Online"

/-- The object `defaultValues` of `slotFetchUserStatusFinished`. -/
def defaultValues : QJsonObject :=
  [("icon", QJsonValue.string ""),
   ("message", QJsonValue.string ""),
   ("status", QJsonValue.string "online")]

/-- Member function `UserStatus::slotFetchUserStatusFinished`.  The status code is
only logged.  `QString("%1 %2").arg(emoji, visibleStatusText)` replaces both
markers in one pass: the emoji, a space, the text. -/
def slotFetchUserStatusFinished (tr : String → String) (u : UserStatus)
    (json : QJsonDocument) (_statusCode : Int) : UserStatus :=
  let retrievedData :=
    (((json.object.value "ocs").toObject).value "data").toObject defaultValues
  let emoji := (retrievedData.value "icon").toString
  let message := (retrievedData.value "message").toString
  let statusString := (retrievedData.value "status").toString
  let u := { u with storedStatus := stringToEnum statusString }
  let statusString := enumToUserString tr u.storedStatus
  let visibleStatusText := if message = "" then statusString else message
  let u := { u with storedMessage := emoji ++ " " ++ visibleStatusText }
  { u with fetchUserStatusFinishedCount := u.fetchUserStatusFinishedCount + 1 }

/-- Member function `UserStatus::status`. -/
def status (u : UserStatus) : Status := u.storedStatus

/-- Member function `UserStatus::message`. -/
def message (u : UserStatus) : String := trimmed u.storedMessage

/-- The document of a reply whose `ocs.data` object is `data`. -/
def replyDocument (data : QJsonObject) : QJsonDocument :=
  QJsonDocument.fromObject
    [("ocs", QJsonValue.object
      [("meta", QJsonValue.object [("status", QJsonValue.string "ok")]),
       ("data", QJsonValue.object data)])]

/-- The payload with the three fields `icon`, `message` and `status`. -/
def payload (icon message status : String) : QJsonObject :=
  [("icon", QJsonValue.string icon),
   ("message", QJsonValue.string message),
   ("status", QJsonValue.string status)]

/-- A `UserStatus` object before any fetch. -/
def demoUserStatus : UserStatus :=
  { storedStatus := Status.Online, storedMessage := "", fetchUserStatusFinishedCount := 0 }

end UserStatus

end OCC

namespace PushNotifications

/-! ## The narrowing of intervals -/

theorem uint32ToInt_of_lt {n : Nat} (h : n < 2 ^ 31) : uint32ToInt n = (n : Int) := by
  have h1 : n % 2 ^ 32 = n := Nat.mod_eq_of_lt (by omega)
  rw [uint32ToInt, h1, if_pos h]

theorem uint32ToInt_nonneg_of_lt {n : Nat} (h : n < 2 ^ 31) : 0 ≤ uint32ToInt n := by
  rw [uint32ToInt_of_lt h]; exact Int.ofNat_nonneg n

theorem uint32ToInt_neg_of_ge {n : Nat} (h1 : 2 ^ 31 ≤ n) (h2 : n < 2 ^ 32) :
    uint32ToInt n < 0 := by
  have h3 : n % 2 ^ 32 = n := Nat.mod_eq_of_lt h2
  have h4 : ¬ n < 2 ^ 31 := by omega
  rw [uint32ToInt, h3, if_neg h4]
  omega

theorem uint32ToInt_mod (n : Nat) : uint32ToInt (n % 2 ^ 32) = uint32ToInt n := by
  rw [uint32ToInt, uint32ToInt, Nat.mod_mod]

/-! ## Normal forms of the member functions -/

theorem closeWebSocket_eq (s : Client) :
    closeWebSocket s =
      { s with
        pingTimer := s.pingTimer.stop
        pingTimeoutTimer := s.pingTimeoutTimer.stop
        isReady := false
        reconnectTimer := s.reconnectTimer.map QTimer.stop
        log := s.log ++ (if s.webSocket.isSome then [Effect.close] else []) } := by
  obtain ⟨self, account, ws, cnt, rt, k, ri, rdy, pt, ptc, pi, ptt, pttc, pong, log⟩ := s
  cases ws <;> cases rt <;> simp [closeWebSocket, perform]

theorem openWebSocket_eq (s : Client) :
    openWebSocket s =
      { s with
        webSocket := some { (s.webSocket.getD {}) with callbacksConnected := true }
        log := s.log ++ [Effect.openUrl s.account.pushNotificationsWebSocketUrl] } := by
  obtain ⟨self, account, ws, cnt, rt, k, ri, rdy, pt, ptc, pi, ptt, pttc, pong, log⟩ := s
  cases ws <;> simp [openWebSocket, perform]

theorem setup_eq (s : Client) :
    setup s =
      { s with
        failedAuthenticationAttemptsCount := 0
        pingTimer := s.pingTimer.stop
        pingTimeoutTimer := s.pingTimeoutTimer.stop
        isReady := false
        reconnectTimer := s.reconnectTimer.map QTimer.stop
        webSocket := some { (s.webSocket.getD {}) with callbacksConnected := true }
        log := s.log ++ (if s.webSocket.isSome then [Effect.close] else []) ++
          [Effect.openUrl s.account.pushNotificationsWebSocketUrl] } := by
  simp [setup, reconnectToWebSocket, closeWebSocket_eq, openWebSocket_eq]

theorem handleInvalidCredentials_eq (s : Client) :
    handleInvalidCredentials s =
      if s.failedAuthenticationAttemptsCount + 1 ≥ MAX_ALLOWED_FAILED_AUTHENTICATION_ATTEMPTS then
        { s with
          failedAuthenticationAttemptsCount := s.failedAuthenticationAttemptsCount + 1
          pingTimer := s.pingTimer.stop
          pingTimeoutTimer := s.pingTimeoutTimer.stop
          isReady := false
          reconnectTimer := s.reconnectTimer.map QTimer.stop
          log := s.log ++ (if s.webSocket.isSome then [Effect.close] else []) ++
            [Effect.emit Signal.authenticationFailed] }
      else
        { s with
          failedAuthenticationAttemptsCount := s.failedAuthenticationAttemptsCount + 1
          reconnectTimer := some
            { active := decide (0 ≤ uint32ToInt s.reconnectTimerInterval)
              interval := uint32ToInt s.reconnectTimerInterval
              singleShot := true }
          reconnectTimerConnections := s.reconnectTimerConnections + 1 } := by
  obtain ⟨self, account, ws, cnt, rt, k, ri, rdy, pt, ptc, pi, ptt, pttc, pong, log⟩ := s
  by_cases h : cnt + 1 ≥ MAX_ALLOWED_FAILED_AUTHENTICATION_ATTEMPTS
  · simp [handleInvalidCredentials, tryReconnectToWebSocket, h, closeWebSocket_eq, emit, perform]
  · cases rt <;>
      simp [handleInvalidCredentials, tryReconnectToWebSocket, h, QTimer.start,
        QTimer.setInterval, QTimer.setSingleShot]

theorem reconnectToWebSocket_eq (s : Client) :
    reconnectToWebSocket s =
      { s with
        pingTimer := s.pingTimer.stop
        pingTimeoutTimer := s.pingTimeoutTimer.stop
        isReady := false
        reconnectTimer := s.reconnectTimer.map QTimer.stop
        webSocket := some { (s.webSocket.getD {}) with callbacksConnected := true }
        log := s.log ++ (if s.webSocket.isSome then [Effect.close] else []) ++
          [Effect.openUrl s.account.pushNotificationsWebSocketUrl] } := by
  simp [reconnectToWebSocket, closeWebSocket_eq, openWebSocket_eq]

theorem closeOpenLog_succ_snoc (url : String) (n : Nat) :
    closeOpenLog url (n + 1) = closeOpenLog url n ++ [Effect.close, Effect.openUrl url] := by
  induction n with
  | zero => rfl
  | succ n ih =>
    calc closeOpenLog url (n + 1 + 1)
        = Effect.close :: Effect.openUrl url :: closeOpenLog url (n + 1) := rfl
      _ = Effect.close :: Effect.openUrl url ::
            (closeOpenLog url n ++ [Effect.close, Effect.openUrl url]) := by rw [ih]
      _ = closeOpenLog url (n + 1) ++ [Effect.close, Effect.openUrl url] := rfl

theorem iterate_reconnectToWebSocket (n : Nat) (s : Client) :
    reconnectToWebSocket^[n + 1] s =
      { reconnectToWebSocket s with
        log := (reconnectToWebSocket s).log ++
          closeOpenLog s.account.pushNotificationsWebSocketUrl n } := by
  induction n with
  | zero => simp [closeOpenLog]
  | succ n ih =>
    rw [Function.iterate_succ_apply', ih, closeOpenLog_succ_snoc]
    obtain ⟨self, account, ws, cnt, rt, k, ri, rdy, pt, ptc, pi, ptt, pttc, pong, log⟩ := s
    cases ws <;> cases rt <;> simp [reconnectToWebSocket_eq, QTimer.stop]

theorem startPingTimeoutTimer_eq (s : Client) :
    startPingTimeoutTimer s =
      { s with
        pingTimeoutTimer := s.pingTimeoutTimer.stop
        pingTimer :=
          { active := decide (0 ≤ uint32ToInt s.pingTimeoutInterval)
            interval := uint32ToInt s.pingTimeoutInterval
            singleShot := true }
        pingTimerConnected := true } := by
  simp [startPingTimeoutTimer, QTimer.start, QTimer.setInterval, QTimer.setSingleShot]

theorem handleAuthenticated_eq (s : Client) :
    handleAuthenticated s =
      { s with
        failedAuthenticationAttemptsCount := 0
        isReady := true
        pingTimeoutTimer := s.pingTimeoutTimer.stop
        pingTimer :=
          { active := decide (0 ≤ uint32ToInt s.pingTimeoutInterval)
            interval := uint32ToInt s.pingTimeoutInterval
            singleShot := true }
        pingTimerConnected := true
        log := s.log ++ [Effect.emit Signal.ready] } := by
  simp [handleAuthenticated, startPingTimeoutTimer_eq, emit, perform]

theorem handleTimeoutPong_eq (s : Client) (payload : Bytes) :
    handleTimeoutPong s payload =
      if payload = timeoutPingPayload s then
        { s with
          timeoutPongReceivedFromWebSocketServer := true
          pingTimeoutTimer := s.pingTimeoutTimer.stop
          pingTimer :=
            { active := decide (0 ≤ uint32ToInt s.pingTimeoutInterval)
              interval := uint32ToInt s.pingTimeoutInterval
              singleShot := true }
          pingTimerConnected := true }
      else s := by
  by_cases h : payload = timeoutPingPayload s <;>
    simp [handleTimeoutPong, h, startPingTimeoutTimer_eq]

theorem inv_of_inactive {s : Client} (h : s.pingTimeoutTimer.active = false) :
    PingTimeoutInv s := by
  intro h'; rw [h] at h'; cases h'

theorem inv_step {s s' : Client} (e : Event) (hinv : PingTimeoutInv s)
    (hstep : step s e = some s') : PingTimeoutInv s' := by
  cases e with
  | setup =>
    simp only [step, Option.some.injEq] at hstep; subst hstep
    exact inv_of_inactive (by simp [setup_eq, QTimer.stop])
  | setReconnectTimerInterval i =>
    simp only [step, Option.some.injEq] at hstep; subst hstep
    exact hinv
  | setPingTimeoutInterval i =>
    simp only [step, Option.some.injEq] at hstep; subst hstep
    exact inv_of_inactive (by simp [setPingTimeoutInterval, startPingTimeoutTimer_eq, QTimer.stop])
  | webSocketConnected =>
    simp only [step, onWebSocketConnected, authenticateOnWebSocket] at hstep
    unfold PingTimeoutInv at *
    cases hws : s.webSocket <;> simp [hws, perform] at hstep hinv ⊢
    subst hstep
    simpa using hinv
  | webSocketDisconnected =>
    simp only [step, Option.some.injEq, onWebSocketDisconnected] at hstep; subst hstep
    exact hinv
  | webSocketTextMessageReceived m =>
    simp only [step, Option.some.injEq] at hstep; subst hstep
    unfold onWebSocketTextMessageReceived
    split
    · exact hinv
    split
    · exact hinv
    split
    · exact hinv
    split
    · exact inv_of_inactive (by simp [handleAuthenticated_eq, QTimer.stop])
    split
    · rw [handleInvalidCredentials_eq]
      split
      · exact inv_of_inactive (by simp [QTimer.stop])
      · exact hinv
    · exact hinv
  | webSocketError e =>
    simp only [step, Option.some.injEq] at hstep; subst hstep
    unfold onWebSocketError
    split
    · exact hinv
    · exact hinv
  | webSocketSslErrors l =>
    simp only [step, Option.some.injEq] at hstep; subst hstep
    exact hinv
  | webSocketPong t p =>
    simp only [step, Option.some.injEq] at hstep; subst hstep
    rw [onWebSocketPongReceived, handleTimeoutPong_eq]
    split
    · exact inv_of_inactive (by simp [QTimer.stop])
    · exact hinv
  | pingTimerTimeout =>
    simp only [step, pingTimerTimeout, pingWebSocketServer] at hstep
    unfold PingTimeoutInv at *
    cases hws : s.webSocket <;> cases hc : s.pingTimerConnected <;>
      simp [hws, hc, perform, startPingTimedOutTimer] at hstep hinv ⊢ <;> subst hstep <;>
      simp [hws, QTimer.start, QTimer.setInterval, QTimer.setSingleShot] <;> simpa using hinv
  | pingTimeoutTimerTimeout =>
    simp only [step, Option.some.injEq] at hstep; subst hstep
    by_cases ha : s.pingTimeoutTimer.active = true
    · obtain ⟨h1, h2, -⟩ := hinv ha
      have : pingTimeoutTimerTimeout s = setup { s with pingTimeoutTimer := s.pingTimeoutTimer.expire } := by
        simp [pingTimeoutTimerTimeout, onPingTimedOut, h1, h2]
      rw [this]
      exact inv_of_inactive (by simp [setup_eq, QTimer.stop])
    · have hx : s.pingTimeoutTimer.expire.active = false := by
        simp only [QTimer.expire, QTimer.stop]; split <;> simp_all
      unfold pingTimeoutTimerTimeout onPingTimedOut
      simp only
      split
      · split
        · exact inv_of_inactive hx
        · exact inv_of_inactive (by simp [setup_eq, QTimer.stop])
      · exact inv_of_inactive hx
  | reconnectTimerTimeout =>
    simp only [step, Option.some.injEq] at hstep; subst hstep
    unfold reconnectTimerTimeout
    split
    · exact hinv
    · simp only
      cases s.reconnectTimerConnections with
      | zero => exact hinv
      | succ n =>
        rw [iterate_reconnectToWebSocket]
        exact inv_of_inactive (by simp [reconnectToWebSocket_eq, QTimer.stop])

/-! ## Reading the log -/

theorem signals_append (l1 l2 : List Effect) :
    signals (l1 ++ l2) = signals l1 ++ signals l2 := by
  induction l1 with
  | nil => rfl
  | cons e l ih => cases e <;> simp [signals, ih]

theorem textMessages_append (l1 l2 : List Effect) :
    textMessages (l1 ++ l2) = textMessages l1 ++ textMessages l2 := by
  induction l1 with
  | nil => rfl
  | cons e l ih => cases e <;> simp [textMessages, ih]

theorem signals_closeOpenLog (url : String) (n : Nat) : signals (closeOpenLog url n) = [] := by
  induction n with
  | zero => rfl
  | succ n ih => simp [closeOpenLog, ih, signals]

theorem textMessages_closeOpenLog (url : String) (n : Nat) :
    textMessages (closeOpenLog url n) = [] := by
  induction n with
  | zero => rfl
  | succ n ih => simp [closeOpenLog, ih, textMessages]

theorem stop_expire (t : QTimer) : t.expire.stop = t.stop := by
  cases h : t.singleShot <;> simp [QTimer.expire, QTimer.stop, h]

/-! ## Reachable states -/

theorem reachable_inv {s : Client} (h : Reachable s) : PingTimeoutInv s := by
  induction h with
  | construct self account r p => exact inv_of_inactive rfl
  | step e _ _ hstep ih => exact inv_step e ih hstep

theorem reachable_run {s s' : Client} (es : List Event) (h : Reachable s)
    (hrun : run s es = some s') : Reachable s' := by
  induction es generalizing s with
  | nil => simp only [run, Option.some.injEq] at hrun; subst hrun; exact h
  | cons e es ih =>
    simp only [run] at hrun
    split at hrun
    · rename_i hen
      cases hs : step s e with
      | none => simp [hs] at hrun
      | some s1 =>
        simp only [hs, Option.some_bind] at hrun
        exact ih (Reachable.step e h hen hs) hrun
    · cases hrun

/-! ## The claims -/

/-- C1: for every client state, each of the text messages "notify_file",
"notify_activity" and "notify_notification" makes `onWebSocketTextMessageReceived`
append exactly one effect to the log, the emission of `filesChanged`,
`activitiesChanged`, `notificationsChanged` respectively with the client's own account
as argument, and change nothing else: no other signal, nothing sent, ready flag,
failure counter and timers as before. -/
theorem notify_message_emits_its_signal (s : Client) :
    onWebSocketTextMessageReceived s "notify_file"
        = { s with log := s.log ++ [Effect.emit (Signal.filesChanged s.account)] } ∧
    onWebSocketTextMessageReceived s "notify_activity"
        = { s with log := s.log ++ [Effect.emit (Signal.activitiesChanged s.account)] } ∧
    onWebSocketTextMessageReceived s "notify_notification"
        = { s with log := s.log ++ [Effect.emit (Signal.notificationsChanged s.account)] } :=
  ⟨rfl, rfl, rfl⟩

/-- C2: on a freshly constructed client of any account (any user `u` and password
`p`), `setup()`, then the `connected` signal, then the message "authenticated" are
all deliverable and leave a log that is exactly: open the endpoint, send `u`, send
`p`, emit `ready`.  So the text messages sent are `[u, p]`, the signals emitted are
`[ready]`, `isReady()` is true and the failure counter is 0. -/
theorem fresh_client_authenticates (self : Nat) (account : Account)
    (reconnectTimerInterval pingTimeoutInterval : Nat) :
    ∃ s, run (construct self account reconnectTimerInterval pingTimeoutInterval)
        [Event.setup, Event.webSocketConnected,
          Event.webSocketTextMessageReceived "authenticated"] = some s ∧
      s.log = [Effect.openUrl account.pushNotificationsWebSocketUrl,
        Effect.sendTextMessage account.user, Effect.sendTextMessage account.password,
        Effect.emit Signal.ready] ∧
      textMessages s.log = [account.user, account.password] ∧
      signals s.log = [Signal.ready] ∧
      isReady s = true ∧ s.failedAuthenticationAttemptsCount = 0 :=
  ⟨_, rfl, rfl, rfl, rfl, rfl, rfl⟩

/-- C5: for every client state and socket error `e`, `onWebSocketError` emits
`connectionLost` if and only if `e` is not `UnfinishedSocketOperationError`.  For
`UnfinishedSocketOperationError` the client is unchanged (nothing logged); for any
other error the only changes are that `_isReady` is false and that one
`connectionLost` is appended to the log, so the failure counter and the reconnect
timer are as before and no `authenticationFailed` is emitted. -/
theorem socket_error_emits_connectionLost (s : Client) (e : SocketError) :
    (signals (onWebSocketError s e).log = signals s.log ++ [Signal.connectionLost]
      ↔ e ≠ SocketError.UnfinishedSocketOperationError) ∧
    onWebSocketError s e =
      (if e = SocketError.UnfinishedSocketOperationError then s
       else { s with isReady := false, log := s.log ++ [Effect.emit Signal.connectionLost] }) ∧
    (onWebSocketError s e).failedAuthenticationAttemptsCount
      = s.failedAuthenticationAttemptsCount ∧
    (onWebSocketError s e).reconnectTimer = s.reconnectTimer ∧
    (onWebSocketError s e).reconnectTimerConnections = s.reconnectTimerConnections := by
  by_cases h : e = SocketError.UnfinishedSocketOperationError
  · simp [onWebSocketError, h]
  · simp [onWebSocketError, h, emit, perform, signals_append, signals]

/-- C6: for every client state and every list of SSL errors, the empty one included,
`onWebSocketSslErrors` changes exactly two things: `_isReady` becomes false and one
`authenticationFailed` is appended to the log.  So no `connectionLost` is emitted,
and the failure counter and the reconnect timer (hence any retry) are as before. -/
theorem ssl_errors_emit_authenticationFailed (s : Client) (errors : List QSslError) :
    onWebSocketSslErrors s errors =
      { s with isReady := false, log := s.log ++ [Effect.emit Signal.authenticationFailed] } ∧
    signals (onWebSocketSslErrors s errors).log
      = signals s.log ++ [Signal.authenticationFailed] ∧
    isReady (onWebSocketSslErrors s errors) = false ∧
    (onWebSocketSslErrors s errors).failedAuthenticationAttemptsCount
      = s.failedAuthenticationAttemptsCount ∧
    (onWebSocketSslErrors s errors).reconnectTimer = s.reconnectTimer ∧
    (onWebSocketSslErrors s errors).reconnectTimerConnections = s.reconnectTimerConnections := by
  simp [onWebSocketSslErrors, emit, perform, signals_append, signals, isReady]

/-- C7: a text message that is not equal, character for character, to one of the
five tokens leaves the whole client, log included, unchanged: no signal, nothing
sent. -/
theorem unknown_message_is_ignored (s : Client) (message : String)
    (h1 : message ≠ "notify_file") (h2 : message ≠ "notify_activity")
    (h3 : message ≠ "notify_notification") (h4 : message ≠ "authenticated")
    (h5 : message ≠ "err: Invalid credentials") :
    onWebSocketTextMessageReceived s message = s := by
  simp [onWebSocketTextMessageReceived, h1, h2, h3, h4, h5]

/-- C7 at the messages "Notify_file", "AUTHENTICATED", "authenticated " and "",
received by `demoClient` after its first probe. -/
theorem unknown_message_is_ignored_witness :
    onWebSocketTextMessageReceived demoProbing "Notify_file" = demoProbing ∧
    onWebSocketTextMessageReceived demoProbing "AUTHENTICATED" = demoProbing ∧
    onWebSocketTextMessageReceived demoProbing "authenticated " = demoProbing ∧
    onWebSocketTextMessageReceived demoProbing "" = demoProbing :=
    ⟨unknown_message_is_ignored demoProbing "Notify_file" (by decide) (by decide) (by decide) (by decide)
        (by decide),
      unknown_message_is_ignored demoProbing "AUTHENTICATED" (by decide) (by decide) (by decide)
        (by decide) (by decide),
      unknown_message_is_ignored demoProbing "authenticated " (by decide) (by decide) (by decide)
        (by decide) (by decide),
      unknown_message_is_ignored demoProbing "" (by decide) (by decide) (by decide) (by decide)
        (by decide)⟩

/-- C9, as the code has it: for every client state and pong payload `p`,
`onWebSocketPongReceived` compares `p` with `timeoutPingPayload()`.  If they differ
the whole client, log included, is unchanged.  If they are equal the reply-timeout
timer is stopped, the pong is marked as received, and the idle timer is made
single-shot, given the heartbeat interval narrowed to `int`, and started; nothing else
changes.  The idle timer then runs with the heartbeat interval when that is below
2^31; from 2^31 on the narrowed interval is negative and the idle timer does not
run. -/
theorem pong_rearms_iff_token (s : Client) (elapsedTime : Nat) (p : Bytes) :
    ((p = timeoutPingPayload s ∧
      onWebSocketPongReceived s elapsedTime p =
        { s with
          timeoutPongReceivedFromWebSocketServer := true
          pingTimeoutTimer := { s.pingTimeoutTimer with active := false }
          pingTimer :=
            { active := decide (0 ≤ uint32ToInt s.pingTimeoutInterval)
              interval := uint32ToInt s.pingTimeoutInterval
              singleShot := true }
          pingTimerConnected := true }) ∨
    (p ≠ timeoutPingPayload s ∧ onWebSocketPongReceived s elapsedTime p = s)) ∧
    (s.pingTimeoutInterval < 2 ^ 31 →
      (onWebSocketPongReceived s elapsedTime (timeoutPingPayload s)).pingTimer
        = { active := true, interval := (s.pingTimeoutInterval : Int), singleShot := true }) ∧
    (2 ^ 31 ≤ s.pingTimeoutInterval → s.pingTimeoutInterval < 2 ^ 32 →
      (onWebSocketPongReceived s elapsedTime (timeoutPingPayload s)).pingTimer.active
        = false) := by
  refine ⟨?_, ?_, ?_⟩
  · by_cases h : p = timeoutPingPayload s
    · exact Or.inl ⟨h, by simp [onWebSocketPongReceived, handleTimeoutPong_eq, h, QTimer.stop]⟩
    · exact Or.inr ⟨h, by simp [onWebSocketPongReceived, handleTimeoutPong_eq, h]⟩
  · intro h
    simp [onWebSocketPongReceived, handleTimeoutPong_eq, uint32ToInt_of_lt h]
  · intro h1 h2
    have := uint32ToInt_neg_of_ge h1 h2
    simp [onWebSocketPongReceived, handleTimeoutPong_eq]
    omega

/-- C9 at `demoClient` after its first probe, whose heartbeat interval is 30000. -/
theorem pong_rearms_iff_token_witness :
    demoProbing.pingTimeoutInterval < 2 ^ 31 ∧
    (onWebSocketPongReceived demoProbing 5 (timeoutPingPayload demoProbing)).pingTimer
      = { active := true, interval := 30000, singleShot := true } :=
  ⟨by decide, (pong_rearms_iff_token demoProbing 5 demoPayload).2.1 (by decide)⟩

/-- C9 fails on the code: `demoLongHeartbeat` has the heartbeat interval 3000000000; a
pong with the token of the client stops the reply-timeout timer and marks the pong as
received, but the idle timer gets the interval -1294967296 and does not run. -/
theorem pong_long_interval_counterexample :
    demoLongHeartbeat.pingTimeoutInterval = 3000000000 ∧
    enabled demoLongHeartbeat (Event.webSocketPong 5 (timeoutPingPayload demoLongHeartbeat))
      = true ∧
    (onWebSocketPongReceived demoLongHeartbeat 5
      (timeoutPingPayload demoLongHeartbeat)).timeoutPongReceivedFromWebSocketServer = true ∧
    (onWebSocketPongReceived demoLongHeartbeat 5 (timeoutPingPayload demoLongHeartbeat)).pingTimer
      = { active := false, interval := -1294967296, singleShot := true } := by
  decide

/-- C8: in every reachable state in which the reply-timeout timer is running, its
timeout runs `setup()`: the early return of `onPingTimedOut` is not taken.  The
failure counter is then 0, `isReady()` is false, the three timers are stopped, and
the log has grown by exactly a `close` followed by an `open` of the endpoint, so
neither `connectionLost` nor `authenticationFailed` is emitted. -/
theorem ping_timeout_performs_setup (s : Client) (hr : Reachable s)
    (ha : enabled s Event.pingTimeoutTimerTimeout = true) :
    step s Event.pingTimeoutTimerTimeout = some (setup s) ∧
    s.timeoutPongReceivedFromWebSocketServer = false ∧
    (setup s).failedAuthenticationAttemptsCount = 0 ∧
    isReady (setup s) = false ∧
    (setup s).pingTimer.active = false ∧
    (setup s).pingTimeoutTimer.active = false ∧
    reconnectTimerActive (setup s) = false ∧
    (setup s).log
      = s.log ++ [Effect.close, Effect.openUrl s.account.pushNotificationsWebSocketUrl] ∧
    signals (setup s).log = signals s.log := by
  have ha' : s.pingTimeoutTimer.active = true := ha
  obtain ⟨h1, h2, h3⟩ := reachable_inv hr ha'
  have hstep : pingTimeoutTimerTimeout s = setup s := by
    simp [pingTimeoutTimerTimeout, onPingTimedOut, h1, h2, setup_eq, stop_expire]
  refine ⟨by simp [step, hstep], h1, ?_, ?_, ?_, ?_, ?_, ?_, ?_⟩
  · simp [setup_eq]
  · simp [setup_eq, isReady]
  · simp [setup_eq, QTimer.stop]
  · simp [setup_eq, QTimer.stop]
  · cases hrt : s.reconnectTimer <;> simp [setup_eq, reconnectTimerActive, hrt, QTimer.stop]
  · simp [setup_eq, h3]
  · simp [setup_eq, h3, signals_append, signals]

/-- C8 at the state of `demoClient` after its first probe, with the reply-timeout
timer running. -/
theorem ping_timeout_performs_setup_witness :
    Reachable demoProbing ∧ enabled demoProbing Event.pingTimeoutTimerTimeout = true ∧
    step demoProbing Event.pingTimeoutTimerTimeout = some (setup demoProbing) ∧
    (setup demoProbing).log = demoProbing.log ++ [Effect.close, Effect.openUrl "wss://cloud.example/push/ws"] :=
  have hr : Reachable demoProbing :=
    reachable_run firstProbe (Reachable.construct 4096 demoAccount 20000 30000) rfl
  have h := ping_timeout_performs_setup demoProbing hr rfl
  ⟨hr, rfl, h.1, h.2.2.2.2.2.2.2.1⟩

theorem pingPayloads_append (l1 l2 : List Effect) :
    pingPayloads (l1 ++ l2) = pingPayloads l1 ++ pingPayloads l2 := by
  induction l1 with
  | nil => rfl
  | cons e l ih => cases e <;> simp [pingPayloads, ih]

theorem pingWebSocketServer_eq {s s' : Client} (h : pingWebSocketServer s = some s') :
    s' = { s with
      timeoutPongReceivedFromWebSocketServer := false
      pingTimeoutTimer :=
        { active := decide (0 ≤ uint32ToInt s.pingTimeoutInterval)
          interval := uint32ToInt s.pingTimeoutInterval
          singleShot := true }
      pingTimeoutTimerConnected := true
      log := s.log ++ [Effect.ping (timeoutPingPayload s)] } := by
  unfold pingWebSocketServer at h
  cases hws : s.webSocket <;> simp [hws] at h
  subst h
  simp [startPingTimedOutTimer, perform, QTimer.start, QTimer.setInterval, QTimer.setSingleShot,
    timeoutPingPayload]

theorem step_self {s s' : Client} (e : Event) (h : step s e = some s') : s'.self = s.self := by
  cases e with
  | setup => simp only [step, Option.some.injEq] at h; subst h; simp [setup_eq]
  | setReconnectTimerInterval i =>
    simp only [step, Option.some.injEq] at h; subst h; rfl
  | setPingTimeoutInterval i =>
    simp only [step, Option.some.injEq] at h; subst h
    simp [setPingTimeoutInterval, startPingTimeoutTimer_eq]
  | webSocketConnected =>
    simp only [step, onWebSocketConnected, authenticateOnWebSocket] at h
    cases hws : s.webSocket <;> simp [hws, perform] at h
    subst h; rfl
  | webSocketDisconnected => simp only [step, Option.some.injEq] at h; subst h; rfl
  | webSocketTextMessageReceived m =>
    simp only [step, Option.some.injEq] at h; subst h
    unfold onWebSocketTextMessageReceived
    repeat' split
    · rfl
    · rfl
    · rfl
    · simp [handleAuthenticated_eq]
    · rw [handleInvalidCredentials_eq]; split <;> rfl
    · rfl
  | webSocketError e =>
    simp only [step, Option.some.injEq] at h; subst h
    unfold onWebSocketError; split <;> rfl
  | webSocketSslErrors l => simp only [step, Option.some.injEq] at h; subst h; rfl
  | webSocketPong t p =>
    simp only [step, Option.some.injEq] at h; subst h
    rw [onWebSocketPongReceived, handleTimeoutPong_eq]; split <;> rfl
  | pingTimerTimeout =>
    simp only [step, pingTimerTimeout] at h
    split at h
    · rw [pingWebSocketServer_eq h]
    · simp only [Option.some.injEq] at h; subst h; rfl
  | pingTimeoutTimerTimeout =>
    simp only [step, Option.some.injEq] at h; subst h
    unfold pingTimeoutTimerTimeout onPingTimedOut
    simp only
    repeat' split
    · rfl
    · simp [setup_eq]
    · rfl
  | reconnectTimerTimeout =>
    simp only [step, Option.some.injEq] at h; subst h
    unfold reconnectTimerTimeout
    split
    · rfl
    · simp only
      cases s.reconnectTimerConnections with
      | zero => rfl
      | succ n => rw [iterate_reconnectToWebSocket]; simp [reconnectToWebSocket_eq]

theorem run_self {s s' : Client} (es : List Event) (h : run s es = some s') :
    s'.self = s.self := by
  induction es generalizing s with
  | nil => simp only [run, Option.some.injEq] at h; subst h; rfl
  | cons e es ih =>
    simp only [run] at h
    split at h
    · cases hs : step s e with
      | none => simp [hs] at h
      | some s1 =>
        simp only [hs, Option.some_bind] at h
        rw [ih h, step_self e hs]
    · cases h

/-- C10, as the code has it: the ping token is the same in every heartbeat cycle of
a client.  If the client sends probe k (`pingWebSocketServer` on `s`), then receives
its reply and any further events, and then sends probe k+1, both probes carry the
payload `timeoutPingPayload s`.  The reply-timeout timer of probe k+1 runs when the
heartbeat interval, narrowed to `int`, is not negative.  A pong with the payload of
probe k is accepted: it stops the reply-timeout timer and starts the idle timer
with the same narrowed interval, so the idle timer runs whenever the reply-timeout
timer of probe k+1 was running.  Only a pong with a different payload is discarded,
leaving the client unchanged. -/
theorem pong_of_earlier_probe_is_accepted (s sk s2 s3 : Client) (mid : List Event)
    (elapsedTime elapsedTime' : Nat)
    (hk : pingWebSocketServer s = some sk)
    (hmid : run sk (Event.webSocketPong elapsedTime (timeoutPingPayload s) :: mid) = some s2)
    (hk1 : pingWebSocketServer s2 = some s3) :
    pingPayloads sk.log = pingPayloads s.log ++ [timeoutPingPayload s] ∧
    pingPayloads s3.log = pingPayloads s2.log ++ [timeoutPingPayload s] ∧
    s3.pingTimeoutTimer.active = decide (0 ≤ uint32ToInt s3.pingTimeoutInterval) ∧
    (onWebSocketPongReceived s3 elapsedTime' (timeoutPingPayload s)).pingTimeoutTimer.active
      = false ∧
    (onWebSocketPongReceived s3 elapsedTime' (timeoutPingPayload s)).pingTimer
      = { active := decide (0 ≤ uint32ToInt s3.pingTimeoutInterval)
          interval := uint32ToInt s3.pingTimeoutInterval
          singleShot := true } ∧
    (s3.pingTimeoutTimer.active = true →
      (onWebSocketPongReceived s3 elapsedTime' (timeoutPingPayload s)).pingTimer.active
        = true) ∧
    ∀ p, p ≠ timeoutPingPayload s → onWebSocketPongReceived s3 elapsedTime' p = s3 := by
  have hself2 : s2.self = s.self := by
    rw [run_self _ hmid, pingWebSocketServer_eq hk]
  have htok2 : timeoutPingPayload s2 = timeoutPingPayload s := by
    simp [timeoutPingPayload, hself2]
  have htok3 : timeoutPingPayload s3 = timeoutPingPayload s := by
    rw [pingWebSocketServer_eq hk1]; simp [timeoutPingPayload, hself2]
  have hact : s3.pingTimeoutTimer.active = decide (0 ≤ uint32ToInt s3.pingTimeoutInterval) := by
    rw [pingWebSocketServer_eq hk1]
  refine ⟨?_, ?_, hact, ?_, ?_, ?_, ?_⟩
  · rw [pingWebSocketServer_eq hk]; simp [pingPayloads_append, pingPayloads]
  · rw [pingWebSocketServer_eq hk1]; simp [pingPayloads_append, pingPayloads, htok2]
  · simp [onWebSocketPongReceived, handleTimeoutPong_eq, htok3, QTimer.stop]
  · simp [onWebSocketPongReceived, handleTimeoutPong_eq, htok3]
  · intro hout
    rw [hact] at hout
    simp [onWebSocketPongReceived, handleTimeoutPong_eq, htok3] at hout ⊢
    exact hout
  · intro p hp
    simp [onWebSocketPongReceived, handleTimeoutPong_eq, htok3, hp]

/-- C10 at `demoClient`: the first probe, its reply, the second probe. -/
theorem pong_of_earlier_probe_is_accepted_witness :
    pingWebSocketServer demoReady = some demoProbe1 ∧
    run demoProbe1 [Event.webSocketPong 5 (timeoutPingPayload demoReady)] = some demoPonged ∧
    pingWebSocketServer demoPonged = some demoProbe2 ∧
    pingPayloads demoProbe1.log = pingPayloads demoReady.log ++ [timeoutPingPayload demoReady] ∧
    pingPayloads demoProbe2.log
      = pingPayloads demoPonged.log ++ [timeoutPingPayload demoReady] ∧
    demoProbe2.pingTimeoutTimer.active = true ∧
    (onWebSocketPongReceived demoProbe2 7 (timeoutPingPayload demoReady)).pingTimeoutTimer.active
      = false ∧
    (onWebSocketPongReceived demoProbe2 7 (timeoutPingPayload demoReady)).pingTimer
      = { active := true, interval := 30000, singleShot := true } ∧
    ∀ p, p ≠ timeoutPingPayload demoReady → onWebSocketPongReceived demoProbe2 7 p = demoProbe2 :=
  have h := pong_of_earlier_probe_is_accepted demoReady demoProbe1 demoPonged demoProbe2 [] 5 7
    rfl rfl rfl
  ⟨rfl, rfl, rfl, h.1, h.2.1, h.2.2.1, h.2.2.2.1, h.2.2.2.2.1, h.2.2.2.2.2.2⟩

/-- C10 fails on the code.  The first probe of `demoClient` carries `demoPayload`; after
its reply and the second probe the reply-timeout timer is running and both probes
carried `demoPayload`; a pong with the payload of the first probe then stops the
reply-timeout timer and restarts the idle timer. -/
theorem stale_pong_counterexample :
    (run demoClient firstProbe).map (fun s => pingPayloads s.log) = some [demoPayload] ∧
    (run demoClient secondProbe).map (fun s => (pingPayloads s.log, s.pingTimeoutTimer.active))
      = some ([demoPayload, demoPayload], true) ∧
    (run demoClient (secondProbe ++ [Event.webSocketPong 7 demoPayload])).map
      (fun s => (s.pingTimeoutTimer.active, s.pingTimer.active)) = some (false, true) :=
  ⟨rfl, rfl, rfl⟩

/-- C3: from any client state, `setup()` followed by three authentication attempts
that the server rejects with "err: Invalid credentials" (the later two started by
the reconnect timer and the `connected` signal).  When the reconnect interval,
narrowed to `int`, is not negative, this is a run the client can make, and along it
`authenticationFailed` is emitted exactly once, by the third reply: the signals
emitted up to and including the first and the second reply, and up to the arrival of
the third one, are those emitted before `setup()`; the third reply logs exactly a
`close` of the transport and then `authenticationFailed`.  After it the reconnect
timer is not running (it was after the first two replies), both heartbeat timers
are stopped, and `isReady()` is false.  When the narrowed interval is negative there
is no such run: the reconnect timer does not time out after the first reply. -/
theorem three_rejections_fail_once (s0 : Client) :
    (0 ≤ uint32ToInt s0.reconnectTimerInterval →
      ∃ s1 s2 c3 s3,
        run s0 [Event.setup, Event.webSocketConnected,
          Event.webSocketTextMessageReceived invalidCredentialsMessage] = some s1 ∧
        run s1 rejectedRetry = some s2 ∧
        run s2 [Event.reconnectTimerTimeout, Event.webSocketConnected] = some c3 ∧
        run c3 [Event.webSocketTextMessageReceived invalidCredentialsMessage] = some s3 ∧
        signals s1.log = signals s0.log ∧
        signals s2.log = signals s0.log ∧
        signals c3.log = signals s0.log ∧
        s3.log = c3.log ++ [Effect.close, Effect.emit Signal.authenticationFailed] ∧
        signals s3.log = signals s0.log ++ [Signal.authenticationFailed] ∧
        reconnectTimerActive s1 = true ∧
        reconnectTimerActive s2 = true ∧
        reconnectTimerActive s3 = false ∧
        s3.pingTimer.active = false ∧
        s3.pingTimeoutTimer.active = false ∧
        isReady s3 = false) ∧
    (uint32ToInt s0.reconnectTimerInterval < 0 →
      run s0 [Event.setup, Event.webSocketConnected,
        Event.webSocketTextMessageReceived invalidCredentialsMessage,
        Event.reconnectTimerTimeout] = none) := by
  obtain ⟨self, account, ws, cnt, rt, k, ri, rdy, pt, ptc, pi, ptt, pttc, pong, log⟩ := s0
  refine ⟨fun h => ?_, fun h => ?_⟩
  · simp only at h
    cases ws <;> cases rt <;>
      simp [run, enabled, step, rejectedRetry, invalidCredentialsMessage, setup_eq,
        onWebSocketConnected, authenticateOnWebSocket, perform, onWebSocketTextMessageReceived,
        handleInvalidCredentials_eq, callbacksConnected, textMessageReceivedConnected,
        reconnectTimerActive, reconnectTimerTimeout, iterate_reconnectToWebSocket,
        reconnectToWebSocket_eq, MAX_ALLOWED_FAILED_AUTHENTICATION_ATTEMPTS, QTimer.expire,
        QTimer.stop, signals_append, signals, signals_closeOpenLog, isReady, h]
  · simp only at h
    have h' : ¬ 0 ≤ uint32ToInt ri := not_le.mpr h
    cases ws <;> cases rt <;>
      simp [run, enabled, step, invalidCredentialsMessage, setup_eq,
        onWebSocketConnected, authenticateOnWebSocket, perform, onWebSocketTextMessageReceived,
        handleInvalidCredentials_eq, callbacksConnected, textMessageReceivedConnected,
        reconnectTimerActive, MAX_ALLOWED_FAILED_AUTHENTICATION_ATTEMPTS, h']

/-- C3 at `demoClient`, whose reconnect interval is 20000. -/
theorem three_rejections_fail_once_witness :
    0 ≤ uint32ToInt demoClient.reconnectTimerInterval ∧
    ∃ c3 s3,
      run c3 [Event.webSocketTextMessageReceived invalidCredentialsMessage] = some s3 ∧
      signals s3.log = signals demoClient.log ++ [Signal.authenticationFailed] ∧
      reconnectTimerActive s3 = false ∧ isReady s3 = false := by
  obtain ⟨_, _, c3, s3, _, _, _, h4, _, _, _, _, h9, _, _, h12, _, _, h15⟩ :=
    (three_rejections_fail_once demoClient).1 (by decide)
  exact ⟨by decide, c3, s3, h4, h9, h12, h15⟩

/-- C4, as the code has it: let the configured reconnect interval be below 2^31.
From any client state, after `setup()` and the `connected` signal, the first and the
second "err: Invalid credentials" reply each log nothing (no `authenticationFailed`,
no `connectionLost`), add one to the failure counter (0 to 1, 1 to 2), and leave the
reconnect timer running, single-shot, with the configured reconnect interval.  The
timeout of that timer logs only `close`/`open` pairs on the transport, one pair per
lambda connected to the timer, at least one, and the next `connected` signal sends
the user and then the password. -/
theorem rejection_below_ceiling_retries (s0 : Client)
    (hR : s0.reconnectTimerInterval < 2 ^ 31) :
    ∃ c1 s1 f1 a1 s2 f2 a2,
      run s0 [Event.setup, Event.webSocketConnected] = some c1 ∧
      run c1 [Event.webSocketTextMessageReceived invalidCredentialsMessage] = some s1 ∧
      run s1 [Event.reconnectTimerTimeout] = some f1 ∧
      run f1 [Event.webSocketConnected] = some a1 ∧
      run a1 [Event.webSocketTextMessageReceived invalidCredentialsMessage] = some s2 ∧
      run s2 [Event.reconnectTimerTimeout] = some f2 ∧
      run f2 [Event.webSocketConnected] = some a2 ∧
      c1.failedAuthenticationAttemptsCount = 0 ∧
      s1.log = c1.log ∧
      s1.failedAuthenticationAttemptsCount = c1.failedAuthenticationAttemptsCount + 1 ∧
      s1.reconnectTimer
        = some { active := true, interval := (s0.reconnectTimerInterval : Int),
                 singleShot := true } ∧
      f1.log = s1.log ++
        closeOpenLog s0.account.pushNotificationsWebSocketUrl (s0.reconnectTimerConnections + 1) ∧
      a1.log = f1.log ++
        [Effect.sendTextMessage s0.account.user, Effect.sendTextMessage s0.account.password] ∧
      s2.log = a1.log ∧
      s2.failedAuthenticationAttemptsCount = a1.failedAuthenticationAttemptsCount + 1 ∧
      s2.failedAuthenticationAttemptsCount = 2 ∧
      s2.reconnectTimer
        = some { active := true, interval := (s0.reconnectTimerInterval : Int),
                 singleShot := true } ∧
      f2.log = s2.log ++
        closeOpenLog s0.account.pushNotificationsWebSocketUrl (s0.reconnectTimerConnections + 2) ∧
      a2.log = f2.log ++
        [Effect.sendTextMessage s0.account.user, Effect.sendTextMessage s0.account.password] := by
  obtain ⟨self, account, ws, cnt, rt, k, ri, rdy, pt, ptc, pi, ptt, pttc, pong, log⟩ := s0
  simp only at hR
  have h1 := uint32ToInt_of_lt hR
  have h2 : (0 : Int) ≤ (ri : Int) := Int.ofNat_nonneg ri
  cases ws <;> cases rt <;>
    simp [run, enabled, step, invalidCredentialsMessage, setup_eq,
      onWebSocketConnected, authenticateOnWebSocket, perform, onWebSocketTextMessageReceived,
      handleInvalidCredentials_eq, callbacksConnected, textMessageReceivedConnected,
      reconnectTimerActive, reconnectTimerTimeout, iterate_reconnectToWebSocket,
      reconnectToWebSocket_eq, MAX_ALLOWED_FAILED_AUTHENTICATION_ATTEMPTS, QTimer.expire,
      QTimer.stop, closeOpenLog, h1, h2]

/-- C4 at `demoClient`, whose reconnect interval is 20000. -/
theorem rejection_below_ceiling_retries_witness :
    demoClient.reconnectTimerInterval < 2 ^ 31 ∧
    ∃ c1 s1,
      run demoClient [Event.setup, Event.webSocketConnected] = some c1 ∧
      run c1 [Event.webSocketTextMessageReceived invalidCredentialsMessage] = some s1 ∧
      s1.log = c1.log ∧
      s1.reconnectTimer = some { active := true, interval := 20000, singleShot := true } := by
  obtain ⟨c1, s1, _, _, _, _, _, h1, h2, _, _, _, _, _, _, h9, _, h11, _⟩ :=
    rejection_below_ceiling_retries demoClient (by decide)
  exact ⟨by decide, c1, s1, h1, h2, h9, h11⟩

/-- C4 fails on the code: the reconnect interval of `demoClient` is set to 3000000000
and its first attempt is rejected.  The reply logs nothing and brings the failure
counter to 1, but the reconnect timer gets the interval -1294967296 and does not
run: its timeout cannot be delivered, and no retry follows. -/
theorem long_reconnect_interval_counterexample :
    run demoClient [Event.setReconnectTimerInterval longInterval, Event.setup,
      Event.webSocketConnected,
      Event.webSocketTextMessageReceived invalidCredentialsMessage] = some demoLongReconnect ∧
    demoLongReconnect.reconnectTimerInterval = 3000000000 ∧
    demoLongReconnect.failedAuthenticationAttemptsCount = 1 ∧
    demoLongReconnect.reconnectTimer
      = some { active := false, interval := -1294967296, singleShot := true } ∧
    enabled demoLongReconnect Event.reconnectTimerTimeout = false ∧
    enabled demoLongReconnect Event.pingTimerTimeout = false ∧
    enabled demoLongReconnect Event.pingTimeoutTimerTimeout = false := by
  decide

end PushNotifications

namespace PushNotifications

/-! ## The failure counter -/

theorem reconnectTimerTimeout_counter (s : Client) :
    (reconnectTimerTimeout s).failedAuthenticationAttemptsCount
      = s.failedAuthenticationAttemptsCount := by
  unfold reconnectTimerTimeout
  split
  · rfl
  · simp only
    cases s.reconnectTimerConnections with
    | zero => rfl
    | succ n => rw [iterate_reconnectToWebSocket]; simp [reconnectToWebSocket_eq]

/-- C11, as the code has it: `setup()` and the message "authenticated" set the
failure counter to 0, "err: Invalid credentials" adds one to it, the timeout of the
reply-timeout timer sets it to 0 when it runs `setup()` (slot connected, no pong
accepted) and leaves it otherwise, and every other operation or callback leaves it
as it is. -/
theorem counter_after_step (s s' : Client) (e : Event) (h : step s e = some s') :
    (e = Event.setup → s'.failedAuthenticationAttemptsCount = 0) ∧
    (e = Event.webSocketTextMessageReceived "authenticated" →
      s'.failedAuthenticationAttemptsCount = 0) ∧
    (e = Event.webSocketTextMessageReceived invalidCredentialsMessage →
      s'.failedAuthenticationAttemptsCount = s.failedAuthenticationAttemptsCount + 1) ∧
    (e = Event.pingTimeoutTimerTimeout →
      s'.failedAuthenticationAttemptsCount =
        if s.pingTimeoutTimerConnected = true ∧ s.timeoutPongReceivedFromWebSocketServer = false
        then 0 else s.failedAuthenticationAttemptsCount) ∧
    (e ≠ Event.setup → e ≠ Event.webSocketTextMessageReceived "authenticated" →
      e ≠ Event.webSocketTextMessageReceived invalidCredentialsMessage →
      e ≠ Event.pingTimeoutTimerTimeout →
      s'.failedAuthenticationAttemptsCount = s.failedAuthenticationAttemptsCount) := by
  cases e with
  | setup =>
    simp only [step, Option.some.injEq] at h; subst h
    simp [setup_eq]
  | setReconnectTimerInterval i =>
    simp only [step, Option.some.injEq] at h; subst h
    simp [setReconnectTimerInterval]
  | setPingTimeoutInterval i =>
    simp only [step, Option.some.injEq] at h; subst h
    simp [setPingTimeoutInterval, startPingTimeoutTimer_eq]
  | webSocketConnected =>
    simp only [step, onWebSocketConnected, authenticateOnWebSocket] at h
    cases hws : s.webSocket <;> simp [hws, perform] at h
    subst h; simp
  | webSocketDisconnected =>
    simp only [step, Option.some.injEq] at h; subst h
    simp [onWebSocketDisconnected]
  | webSocketTextMessageReceived m =>
    simp only [step, Option.some.injEq] at h; subst h
    by_cases h1 : m = "authenticated"
    · subst h1
      simp [onWebSocketTextMessageReceived, handleAuthenticated_eq, invalidCredentialsMessage]
    · by_cases h2 : m = invalidCredentialsMessage
      · subst h2
        have : onWebSocketTextMessageReceived s invalidCredentialsMessage
            = handleInvalidCredentials s := rfl
        rw [this, handleInvalidCredentials_eq]
        simp only [invalidCredentialsMessage]
        split <;> simp
      · simp only [invalidCredentialsMessage] at h2
        simp only [onWebSocketTextMessageReceived, h1, h2, invalidCredentialsMessage]
        repeat' split
        all_goals first
          | contradiction
          | simp [handleNotifyFile, handleNotifyActivity, handleNotifyNotification, emit,
              perform, h1, h2]
  | webSocketError e =>
    simp only [step, Option.some.injEq] at h; subst h
    unfold onWebSocketError; split <;> simp [emit, perform]
  | webSocketSslErrors l =>
    simp only [step, Option.some.injEq] at h; subst h
    simp [onWebSocketSslErrors, emit, perform]
  | webSocketPong t p =>
    simp only [step, Option.some.injEq] at h; subst h
    rw [onWebSocketPongReceived, handleTimeoutPong_eq]; split <;> simp
  | pingTimerTimeout =>
    simp only [step, pingTimerTimeout] at h
    split at h
    · rw [pingWebSocketServer_eq h]; simp
    · simp only [Option.some.injEq] at h; subst h; simp
  | pingTimeoutTimerTimeout =>
    simp only [step, Option.some.injEq] at h; subst h
    cases hc : s.pingTimeoutTimerConnected <;>
      cases hp : s.timeoutPongReceivedFromWebSocketServer <;>
      simp [pingTimeoutTimerTimeout, onPingTimedOut, hc, hp, setup_eq]
  | reconnectTimerTimeout =>
    simp only [step, Option.some.injEq] at h; subst h
    simp [reconnectTimerTimeout_counter]

/-- C11 at `demoClient` and the message "authenticated" that follows one rejected
attempt. -/
theorem counter_after_step_witness :
    step demoRetrying (Event.webSocketTextMessageReceived "authenticated")
      = some (onWebSocketTextMessageReceived demoRetrying "authenticated") ∧
    demoRetrying.failedAuthenticationAttemptsCount = 1 ∧
    (onWebSocketTextMessageReceived demoRetrying "authenticated").failedAuthenticationAttemptsCount
      = 0 :=
  ⟨rfl, rfl,
    (counter_after_step demoRetrying _ (Event.webSocketTextMessageReceived "authenticated")
      rfl).2.1 rfl⟩

/-- C11 fails on the code: after one rejected attempt the counter of `demoClient` is
1; the retry is answered with "authenticated", and the counter is 0 although
`setup()` was not called again. -/
theorem authenticated_resets_counter_counterexample :
    (run demoClient [Event.setup, Event.webSocketConnected,
        Event.webSocketTextMessageReceived invalidCredentialsMessage,
        Event.reconnectTimerTimeout, Event.webSocketConnected]).map
      (fun s => s.failedAuthenticationAttemptsCount) = some 1 ∧
    (run demoClient [Event.setup, Event.webSocketConnected,
        Event.webSocketTextMessageReceived invalidCredentialsMessage,
        Event.reconnectTimerTimeout, Event.webSocketConnected,
        Event.webSocketTextMessageReceived "authenticated"]).map
      (fun s => s.failedAuthenticationAttemptsCount) = some 0 :=
  ⟨rfl, rfl⟩

end PushNotifications

namespace PushNotifications

/-! ## Messages while authenticating -/

/-- C12, as the code has it: in the state reached by `setup()` and the `connected`
signal (credentials sent, `isReady()` false) a text message other than the five
tokens is ignored, the client is unchanged; the three notify messages are
dispatched as in any other state: each appends the emission of its signal to the log
and changes nothing else, so `isReady()` stays false. -/
theorem notify_dispatched_while_authenticating (s0 s : Client)
    (h : run s0 [Event.setup, Event.webSocketConnected] = some s) :
    isReady s = false ∧
    enabled s (Event.webSocketTextMessageReceived "notify_file") = true ∧
    textMessages s.log
      = textMessages s0.log ++ [s.account.user, s.account.password] ∧
    onWebSocketTextMessageReceived s "notify_file"
        = { s with log := s.log ++ [Effect.emit (Signal.filesChanged s.account)] } ∧
    onWebSocketTextMessageReceived s "notify_activity"
        = { s with log := s.log ++ [Effect.emit (Signal.activitiesChanged s.account)] } ∧
    onWebSocketTextMessageReceived s "notify_notification"
        = { s with log := s.log ++ [Effect.emit (Signal.notificationsChanged s.account)] } ∧
    ∀ message, message ≠ "notify_file" → message ≠ "notify_activity" →
      message ≠ "notify_notification" → message ≠ "authenticated" →
      message ≠ "err: Invalid credentials" →
      onWebSocketTextMessageReceived s message = s := by
  have hs : isReady s = false ∧
      enabled s (Event.webSocketTextMessageReceived "notify_file") = true ∧
      textMessages s.log = textMessages s0.log ++ [s.account.user, s.account.password] := by
    obtain ⟨self, account, ws, cnt, rt, k, ri, rdy, pt, ptc, pi, ptt, pttc, pong, log⟩ := s0
    cases ws <;> cases rt <;>
      simp [run, enabled, step, setup_eq, onWebSocketConnected, authenticateOnWebSocket,
        perform, callbacksConnected] at h <;>
      subst h <;>
      simp [isReady, enabled, textMessageReceivedConnected, textMessages_append, textMessages]
  refine ⟨hs.1, hs.2.1, hs.2.2, rfl, rfl, rfl, ?_⟩
  intro message h1 h2 h3 h4 h5
  simp [onWebSocketTextMessageReceived, h1, h2, h3, h4, h5]

/-- C12 at `demoClient` while it authenticates. -/
theorem notify_dispatched_while_authenticating_witness :
    run demoClient [Event.setup, Event.webSocketConnected] = some demoAuthenticating ∧
    isReady demoAuthenticating = false ∧
    onWebSocketTextMessageReceived demoAuthenticating "notify_file"
      = { demoAuthenticating with
          log := demoAuthenticating.log ++ [Effect.emit (Signal.filesChanged demoAccount)] } :=
  have h := notify_dispatched_while_authenticating demoClient demoAuthenticating rfl
  ⟨rfl, h.1, h.2.2.2.1⟩

/-- C12 fails on the code: `demoClient` has sent its credentials and is not ready;
the message "notify_file" is deliverable and makes it emit `filesChanged`. -/
theorem notify_while_authenticating_counterexample :
    (run demoClient [Event.setup, Event.webSocketConnected]).map
      (fun s => (isReady s, signals s.log)) = some (false, []) ∧
    (run demoClient [Event.setup, Event.webSocketConnected,
        Event.webSocketTextMessageReceived "notify_file"]).map
      (fun s => (isReady s, signals s.log))
      = some (false, [Signal.filesChanged demoAccount]) :=
  ⟨rfl, rfl⟩

end PushNotifications

namespace PushNotifications

/-! ## The ready flag -/

theorem reconnectTimerTimeout_isReady (s : Client) :
    (reconnectTimerTimeout s).isReady = true → s.isReady = true := by
  unfold reconnectTimerTimeout
  split
  · exact id
  · simp only
    cases s.reconnectTimerConnections with
    | zero => exact id
    | succ n => rw [iterate_reconnectToWebSocket]; simp [reconnectToWebSocket_eq]

theorem isReady_step {s s' : Client} (e : Event) (h : step s e = some s')
    (hr : isReady s' = true) :
    isReady s = true ∨ e = Event.webSocketTextMessageReceived "authenticated" := by
  unfold isReady at *
  cases e with
  | setup =>
    simp only [step, Option.some.injEq] at h; subst h
    simp [setup_eq] at hr
  | setReconnectTimerInterval i =>
    simp only [step, Option.some.injEq] at h; subst h
    exact Or.inl hr
  | setPingTimeoutInterval i =>
    simp only [step, Option.some.injEq] at h; subst h
    exact Or.inl (by simpa [setPingTimeoutInterval, startPingTimeoutTimer_eq] using hr)
  | webSocketConnected =>
    simp only [step, onWebSocketConnected, authenticateOnWebSocket] at h
    cases hws : s.webSocket <;> simp [hws, perform] at h
    subst h; exact Or.inl hr
  | webSocketDisconnected =>
    simp only [step, Option.some.injEq] at h; subst h
    exact Or.inl hr
  | webSocketTextMessageReceived m =>
    simp only [step, Option.some.injEq] at h; subst h
    by_cases h1 : m = "authenticated"
    · exact Or.inr (by rw [h1])
    · left
      unfold onWebSocketTextMessageReceived at hr
      simp only [h1, if_false] at hr
      split at hr
      · exact hr
      split at hr
      · exact hr
      split at hr
      · exact hr
      split at hr
      · rw [handleInvalidCredentials_eq] at hr
        split at hr
        · simp at hr
        · exact hr
      · exact hr
  | webSocketError e =>
    simp only [step, Option.some.injEq] at h; subst h
    unfold onWebSocketError at hr
    split at hr
    · exact Or.inl hr
    · simp [emit, perform] at hr
  | webSocketSslErrors l =>
    simp only [step, Option.some.injEq] at h; subst h
    simp [onWebSocketSslErrors, emit, perform] at hr
  | webSocketPong t p =>
    simp only [step, Option.some.injEq] at h; subst h
    rw [onWebSocketPongReceived, handleTimeoutPong_eq] at hr
    split at hr <;> exact Or.inl hr
  | pingTimerTimeout =>
    simp only [step, pingTimerTimeout] at h
    split at h
    · rw [pingWebSocketServer_eq h] at hr; exact Or.inl hr
    · simp only [Option.some.injEq] at h; subst h; exact Or.inl hr
  | pingTimeoutTimerTimeout =>
    simp only [step, Option.some.injEq] at h; subst h
    unfold pingTimeoutTimerTimeout onPingTimedOut at hr
    simp only at hr
    split at hr
    · split at hr
      · exact Or.inl hr
      · simp [setup_eq] at hr
    · exact Or.inl hr
  | reconnectTimerTimeout =>
    simp only [step, Option.some.injEq] at h; subst h
    exact Or.inl (reconnectTimerTimeout_isReady s hr)

theorem isReady_run_false {s s' : Client} (es : List Event) (h0 : isReady s = false)
    (hes : Event.webSocketTextMessageReceived "authenticated" ∉ es)
    (h : run s es = some s') : isReady s' = false := by
  induction es generalizing s with
  | nil => simp only [run, Option.some.injEq] at h; subst h; exact h0
  | cons e es ih =>
    simp only [run] at h
    split at h
    · cases hs : step s e with
      | none => simp [hs] at h
      | some s1 =>
        simp only [hs, Option.some_bind] at h
        have h1 : isReady s1 = false := by
          cases hr : isReady s1 with
          | false => rfl
          | true =>
            rcases isReady_step e hs hr with h2 | h2
            · rw [h0] at h2; cases h2
            · exact absurd (h2 ▸ List.mem_cons_self _ _) hes
        exact ih h1 (fun hm => hes (List.mem_cons_of_mem _ hm)) h
    · cases h

end PushNotifications

namespace PushNotifications

/-- C13, as the code has it, for a reachable state `s`.  `isReady()` becomes true
only by the message "authenticated": a freshly constructed client is not ready, and
a run that starts where `isReady()` is false and has no "authenticated" in it ends
where `isReady()` is false.  `isReady()` is false right after `setup()`, after a
socket error other than `UnfinishedSocketOperationError`, after SSL errors, after
the timeout of the reply-timeout timer, and after the "err: Invalid credentials"
that reaches the ceiling.  `UnfinishedSocketOperationError` and a rejection below
the ceiling leave the flag as it is; after such a rejection the reconnect timer is
running, unless the reconnect interval narrowed to `int` is negative, and its
timeout clears the flag. -/
theorem isReady_only_after_authenticated (s : Client) (hr : Reachable s) :
    (∀ self account r p, isReady (construct self account r p) = false) ∧
    (∀ e s', step s e = some s' → isReady s' = true →
      isReady s = true ∨ e = Event.webSocketTextMessageReceived "authenticated") ∧
    (∀ es s', isReady s = false → Event.webSocketTextMessageReceived "authenticated" ∉ es →
      run s es = some s' → isReady s' = false) ∧
    isReady (setup s) = false ∧
    (∀ e, e ≠ SocketError.UnfinishedSocketOperationError →
      isReady (onWebSocketError s e) = false) ∧
    isReady (onWebSocketError s SocketError.UnfinishedSocketOperationError) = isReady s ∧
    (∀ errors, isReady (onWebSocketSslErrors s errors) = false) ∧
    (enabled s Event.pingTimeoutTimerTimeout = true →
      isReady (pingTimeoutTimerTimeout s) = false) ∧
    (s.failedAuthenticationAttemptsCount + 1 ≥ MAX_ALLOWED_FAILED_AUTHENTICATION_ATTEMPTS →
      isReady (onWebSocketTextMessageReceived s invalidCredentialsMessage) = false) ∧
    (s.failedAuthenticationAttemptsCount + 1 < MAX_ALLOWED_FAILED_AUTHENTICATION_ATTEMPTS →
      isReady (onWebSocketTextMessageReceived s invalidCredentialsMessage) = isReady s ∧
      enabled (onWebSocketTextMessageReceived s invalidCredentialsMessage)
        Event.reconnectTimerTimeout = decide (0 ≤ uint32ToInt s.reconnectTimerInterval) ∧
      isReady (reconnectTimerTimeout
        (onWebSocketTextMessageReceived s invalidCredentialsMessage)) = false) := by
  have hmsg : onWebSocketTextMessageReceived s invalidCredentialsMessage
      = handleInvalidCredentials s := rfl
  refine ⟨fun _ _ _ _ => rfl, fun e s' h => isReady_step e h,
    fun es s' h0 hes h => isReady_run_false es h0 hes h, ?_, ?_, ?_, ?_, ?_, ?_, ?_⟩
  · simp [isReady, setup_eq]
  · intro e he
    simp [isReady, onWebSocketError, he, emit, perform]
  · simp [isReady, onWebSocketError]
  · intro errors
    simp [isReady, onWebSocketSslErrors, emit, perform]
  · intro ha
    have ha' : s.pingTimeoutTimer.active = true := ha
    obtain ⟨h1, h2, -⟩ := reachable_inv hr ha'
    simp [isReady, pingTimeoutTimerTimeout, onPingTimedOut, h1, h2, setup_eq]
  · intro hc
    rw [hmsg, handleInvalidCredentials_eq, if_pos hc]
    rfl
  · intro hc
    have hc' : ¬ s.failedAuthenticationAttemptsCount + 1
        ≥ MAX_ALLOWED_FAILED_AUTHENTICATION_ATTEMPTS := Nat.not_le.mpr hc
    rw [hmsg, handleInvalidCredentials_eq, if_neg hc']
    refine ⟨rfl, rfl, ?_⟩
    simp [isReady, reconnectTimerTimeout, iterate_reconnectToWebSocket,
      reconnectToWebSocket_eq]

/-- C13 at `demoClient` after its first probe: reachable, ready, the reply-timeout
timer running, no rejection so far. -/
theorem isReady_only_after_authenticated_witness :
    Reachable demoProbing ∧ isReady demoProbing = true ∧
    isReady (setup demoProbing) = false ∧
    isReady (onWebSocketError demoProbing SocketError.UnfinishedSocketOperationError) = true ∧
    isReady (pingTimeoutTimerTimeout demoProbing) = false ∧
    isReady (onWebSocketTextMessageReceived demoProbing invalidCredentialsMessage) = true ∧
    isReady (reconnectTimerTimeout
      (onWebSocketTextMessageReceived demoProbing invalidCredentialsMessage)) = false :=
  have hr : Reachable demoProbing :=
    reachable_run firstProbe (Reachable.construct 4096 demoAccount 20000 30000) rfl
  have h := isReady_only_after_authenticated demoProbing hr
  ⟨hr, rfl, h.2.2.2.1, h.2.2.2.2.2.1, h.2.2.2.2.2.2.2.1 rfl,
    (h.2.2.2.2.2.2.2.2.2 (by decide)).1, (h.2.2.2.2.2.2.2.2.2 (by decide)).2.2⟩

/-- C13 fails on the code: `demoClient` is ready, with no rejection so far; the
message "err: Invalid credentials" is deliverable, brings the failure counter to 1,
below the ceiling, starts the reconnect timer, and leaves `isReady()` true.  The
socket error `UnfinishedSocketOperationError` leaves `isReady()` true as well. -/
theorem isReady_after_rejection_counterexample :
    (run demoClient [Event.setup, Event.webSocketConnected,
        Event.webSocketTextMessageReceived "authenticated",
        Event.webSocketTextMessageReceived invalidCredentialsMessage]).map
      (fun s => (isReady s, s.failedAuthenticationAttemptsCount, reconnectTimerActive s))
      = some (true, 1, true) ∧
    (run demoClient [Event.setup, Event.webSocketConnected,
        Event.webSocketTextMessageReceived "authenticated",
        Event.webSocketError SocketError.UnfinishedSocketOperationError]).map
      (fun s => isReady s) = some true :=
  ⟨rfl, rfl⟩

end PushNotifications

namespace PushNotifications

/-! ## Teardown on rejection and on SSL errors -/

/-- C14, as the code has it, for every client state.  The "err: Invalid credentials"
that reaches the ceiling stops the idle, the reply-timeout and the reconnect timer
and closes the transport (when there is one) before it emits
`authenticationFailed`.  A rejection below the ceiling leaves both heartbeat timers
and the log as they are and only starts the reconnect timer, which runs unless the
reconnect interval narrowed to `int` is negative; the timers are stopped and the
transport is closed when that timer times out, before the transport is opened
again.  SSL errors leave both heartbeat timers as they are and log only
`authenticationFailed`: the transport is not closed. -/
theorem teardown_on_rejection_and_ssl (s : Client) :
    (s.failedAuthenticationAttemptsCount + 1 ≥ MAX_ALLOWED_FAILED_AUTHENTICATION_ATTEMPTS →
      (onWebSocketTextMessageReceived s invalidCredentialsMessage).pingTimer.active = false ∧
      (onWebSocketTextMessageReceived s invalidCredentialsMessage).pingTimeoutTimer.active
        = false ∧
      reconnectTimerActive (onWebSocketTextMessageReceived s invalidCredentialsMessage)
        = false ∧
      (onWebSocketTextMessageReceived s invalidCredentialsMessage).log
        = s.log ++ (if s.webSocket.isSome then [Effect.close] else []) ++
            [Effect.emit Signal.authenticationFailed]) ∧
    (s.failedAuthenticationAttemptsCount + 1 < MAX_ALLOWED_FAILED_AUTHENTICATION_ATTEMPTS →
      (onWebSocketTextMessageReceived s invalidCredentialsMessage).pingTimer = s.pingTimer ∧
      (onWebSocketTextMessageReceived s invalidCredentialsMessage).pingTimeoutTimer
        = s.pingTimeoutTimer ∧
      (onWebSocketTextMessageReceived s invalidCredentialsMessage).log = s.log ∧
      reconnectTimerActive (onWebSocketTextMessageReceived s invalidCredentialsMessage)
        = decide (0 ≤ uint32ToInt s.reconnectTimerInterval) ∧
      (reconnectTimerTimeout
        (onWebSocketTextMessageReceived s invalidCredentialsMessage)).pingTimer.active
        = false ∧
      (reconnectTimerTimeout
        (onWebSocketTextMessageReceived s invalidCredentialsMessage)).pingTimeoutTimer.active
        = false ∧
      (reconnectTimerTimeout (onWebSocketTextMessageReceived s invalidCredentialsMessage)).log
        = s.log ++ (if s.webSocket.isSome then [Effect.close] else []) ++
            Effect.openUrl s.account.pushNotificationsWebSocketUrl ::
            closeOpenLog s.account.pushNotificationsWebSocketUrl s.reconnectTimerConnections) ∧
    (∀ errors,
      (onWebSocketSslErrors s errors).pingTimer = s.pingTimer ∧
      (onWebSocketSslErrors s errors).pingTimeoutTimer = s.pingTimeoutTimer ∧
      (onWebSocketSslErrors s errors).webSocket = s.webSocket ∧
      (onWebSocketSslErrors s errors).log
        = s.log ++ [Effect.emit Signal.authenticationFailed]) := by
  have hmsg : onWebSocketTextMessageReceived s invalidCredentialsMessage
      = handleInvalidCredentials s := rfl
  refine ⟨?_, ?_, ?_⟩
  · intro hc
    rw [hmsg, handleInvalidCredentials_eq, if_pos hc]
    cases hrt : s.reconnectTimer <;> simp [reconnectTimerActive, hrt, QTimer.stop]
  · intro hc
    have hc' : ¬ s.failedAuthenticationAttemptsCount + 1
        ≥ MAX_ALLOWED_FAILED_AUTHENTICATION_ATTEMPTS := Nat.not_le.mpr hc
    rw [hmsg, handleInvalidCredentials_eq, if_neg hc']
    simp [reconnectTimerActive, reconnectTimerTimeout, iterate_reconnectToWebSocket,
      reconnectToWebSocket_eq, QTimer.stop]
  · intro errors
    simp [onWebSocketSslErrors, emit, perform]

/-- C14 at `demoClient` once it is ready, before any rejection. -/
theorem teardown_on_rejection_and_ssl_witness :
    demoReady.pingTimer.active = true ∧
    (onWebSocketTextMessageReceived demoReady invalidCredentialsMessage).pingTimer.active
      = true ∧
    (onWebSocketTextMessageReceived demoReady invalidCredentialsMessage).log = demoReady.log ∧
    (reconnectTimerTimeout
      (onWebSocketTextMessageReceived demoReady invalidCredentialsMessage)).pingTimer.active
      = false :=
  have h := (teardown_on_rejection_and_ssl demoReady).2.1 (by decide)
  ⟨rfl, rfl, h.2.2.1, h.2.2.2.2.1⟩

/-- C14 fails on the code.  `demoClient` is ready and its idle timer runs.  After SSL
errors the idle timer still runs and the log has no `close`; the idle timer then
times out and a ping is sent.  After a first "err: Invalid credentials" the idle
timer still runs as well and nothing was logged. -/
theorem heartbeat_survives_ssl_error_counterexample :
    (run demoClient [Event.setup, Event.webSocketConnected,
        Event.webSocketTextMessageReceived "authenticated",
        Event.webSocketSslErrors []]).map (fun s => (s.pingTimer.active, s.log))
      = some (true,
          [Effect.openUrl "wss://cloud.example/push/ws", Effect.sendTextMessage "alice",
            Effect.sendTextMessage "secret", Effect.emit Signal.ready,
            Effect.emit Signal.authenticationFailed]) ∧
    (run demoClient [Event.setup, Event.webSocketConnected,
        Event.webSocketTextMessageReceived "authenticated",
        Event.webSocketSslErrors [], Event.pingTimerTimeout]).map
      (fun s => pingPayloads s.log) = some [demoPayload] ∧
    (run demoClient [Event.setup, Event.webSocketConnected,
        Event.webSocketTextMessageReceived "authenticated",
        Event.webSocketTextMessageReceived invalidCredentialsMessage]).map
      (fun s => (s.pingTimer.active, reconnectTimerActive s, s.log))
      = some (true, true,
          [Effect.openUrl "wss://cloud.example/push/ws", Effect.sendTextMessage "alice",
            Effect.sendTextMessage "secret", Effect.emit Signal.ready]) :=
  ⟨rfl, rfl, rfl⟩

end PushNotifications

namespace PushNotifications

/-! ## The two heartbeat timers -/

theorem heartbeatInv_of_timers {s s' : Client} (h1 : s'.pingTimer = s.pingTimer)
    (h2 : s'.pingTimeoutTimer = s.pingTimeoutTimer) (h : HeartbeatInv s) : HeartbeatInv s' := by
  unfold HeartbeatInv at *
  rw [h1, h2]; exact h

theorem heartbeatInv_of_idle_stopped {s : Client} (h : s.pingTimer.active = false) :
    HeartbeatInv s := by
  unfold HeartbeatInv
  simp [h]

theorem heartbeatInv_of_started {s : Client} (h1 : s.pingTimer.singleShot = true)
    (h2 : s.pingTimeoutTimer.active = false) : HeartbeatInv s := by
  unfold HeartbeatInv
  simp [h1, h2]

theorem expire_inactive_of_inv {s : Client} (h : HeartbeatInv s) :
    s.pingTimer.expire.active = false := by
  unfold HeartbeatInv at h
  cases ha : s.pingTimer.active with
  | false => cases hs : s.pingTimer.singleShot <;> simp [QTimer.expire, QTimer.stop, hs, ha]
  | true => simp [QTimer.expire, QTimer.stop, h.1 ha]

theorem expire_active {t : QTimer} (h : t.expire.active = true) : t.active = true := by
  cases hs : t.singleShot <;> simp [QTimer.expire, QTimer.stop, hs] at h
  exact h

theorem heartbeatInv_step {s s' : Client} (e : Event) (hinv : HeartbeatInv s)
    (hstep : step s e = some s') : HeartbeatInv s' := by
  cases e with
  | setup =>
    simp only [step, Option.some.injEq] at hstep; subst hstep
    exact heartbeatInv_of_idle_stopped (by simp [setup_eq, QTimer.stop])
  | setReconnectTimerInterval i =>
    simp only [step, Option.some.injEq] at hstep; subst hstep
    exact heartbeatInv_of_timers rfl rfl hinv
  | setPingTimeoutInterval i =>
    simp only [step, Option.some.injEq] at hstep; subst hstep
    exact heartbeatInv_of_started
      (by simp [setPingTimeoutInterval, startPingTimeoutTimer_eq])
      (by simp [setPingTimeoutInterval, startPingTimeoutTimer_eq, QTimer.stop])
  | webSocketConnected =>
    simp only [step, onWebSocketConnected, authenticateOnWebSocket] at hstep
    cases hws : s.webSocket <;> simp [hws, perform] at hstep
    subst hstep
    exact heartbeatInv_of_timers rfl rfl hinv
  | webSocketDisconnected =>
    simp only [step, Option.some.injEq] at hstep; subst hstep
    exact hinv
  | webSocketTextMessageReceived m =>
    simp only [step, Option.some.injEq] at hstep; subst hstep
    unfold onWebSocketTextMessageReceived
    split
    · exact heartbeatInv_of_timers rfl rfl hinv
    split
    · exact heartbeatInv_of_timers rfl rfl hinv
    split
    · exact heartbeatInv_of_timers rfl rfl hinv
    split
    · exact heartbeatInv_of_started (by simp [handleAuthenticated_eq])
        (by simp [handleAuthenticated_eq, QTimer.stop])
    split
    · rw [handleInvalidCredentials_eq]
      split
      · exact heartbeatInv_of_idle_stopped (by simp [QTimer.stop])
      · exact heartbeatInv_of_timers rfl rfl hinv
    · exact hinv
  | webSocketError e =>
    simp only [step, Option.some.injEq] at hstep; subst hstep
    unfold onWebSocketError
    split
    · exact hinv
    · exact heartbeatInv_of_timers rfl rfl hinv
  | webSocketSslErrors l =>
    simp only [step, Option.some.injEq] at hstep; subst hstep
    exact heartbeatInv_of_timers rfl rfl hinv
  | webSocketPong t p =>
    simp only [step, Option.some.injEq] at hstep; subst hstep
    rw [onWebSocketPongReceived, handleTimeoutPong_eq]
    split
    · exact heartbeatInv_of_started rfl (by simp [QTimer.stop])
    · exact hinv
  | pingTimerTimeout =>
    have hx := expire_inactive_of_inv hinv
    simp only [step, pingTimerTimeout] at hstep
    split at hstep
    · rw [pingWebSocketServer_eq hstep]
      exact heartbeatInv_of_idle_stopped hx
    · simp only [Option.some.injEq] at hstep; subst hstep
      exact heartbeatInv_of_idle_stopped hx
  | pingTimeoutTimerTimeout =>
    simp only [step, Option.some.injEq] at hstep; subst hstep
    have hkeep : HeartbeatInv { s with pingTimeoutTimer := s.pingTimeoutTimer.expire } := by
      unfold HeartbeatInv at *
      refine ⟨hinv.1, fun h => hinv.2 ⟨h.1, expire_active h.2⟩⟩
    unfold pingTimeoutTimerTimeout onPingTimedOut
    simp only
    split
    · split
      · exact hkeep
      · exact heartbeatInv_of_idle_stopped (by simp [setup_eq, QTimer.stop])
    · exact hkeep
  | reconnectTimerTimeout =>
    simp only [step, Option.some.injEq] at hstep; subst hstep
    unfold reconnectTimerTimeout
    split
    · exact hinv
    · simp only
      cases s.reconnectTimerConnections with
      | zero => exact heartbeatInv_of_timers rfl rfl hinv
      | succ n =>
        rw [iterate_reconnectToWebSocket]
        exact heartbeatInv_of_idle_stopped (by simp [reconnectToWebSocket_eq, QTimer.stop])

theorem reachable_heartbeatInv {s : Client} (h : Reachable s) : HeartbeatInv s := by
  induction h with
  | construct self account r p => exact heartbeatInv_of_idle_stopped rfl
  | step e _ _ hstep ih => exact heartbeatInv_step e ih hstep

/-- C15: in every reachable state the idle timer and the reply-timeout timer do not
both run.  So whenever the idle timer can time out, which is the only way a probe
is sent, the reply-timeout timer is not running; and if the timeout does send the
probe, then afterwards the idle timer is stopped and the reply-timeout timer runs. -/
theorem heartbeat_timers_exclusive (s : Client) (hr : Reachable s) :
    ¬(s.pingTimer.active = true ∧ s.pingTimeoutTimer.active = true) ∧
    (enabled s Event.pingTimerTimeout = true → s.pingTimeoutTimer.active = false) ∧
    (∀ s', step s Event.pingTimerTimeout = some s' →
      ¬(s'.pingTimer.active = true ∧ s'.pingTimeoutTimer.active = true)) := by
  have hinv := reachable_heartbeatInv hr
  refine ⟨hinv.2, ?_, ?_⟩
  · intro ha
    have ha' : s.pingTimer.active = true := ha
    cases hb : s.pingTimeoutTimer.active with
    | false => rfl
    | true => exact absurd ⟨ha', hb⟩ hinv.2
  · intro s' hs
    exact (heartbeatInv_step Event.pingTimerTimeout hinv hs).2

/-- C15 at `demoClient` once it is ready: the idle timer runs, the reply-timeout
timer does not. -/
theorem heartbeat_timers_exclusive_witness :
    Reachable demoReady ∧ enabled demoReady Event.pingTimerTimeout = true ∧
    demoReady.pingTimeoutTimer.active = false :=
  have hr : Reachable demoReady :=
    reachable_run _ (Reachable.construct 4096 demoAccount 20000 30000)
      (rfl : run demoClient [Event.setup, Event.webSocketConnected,
        Event.webSocketTextMessageReceived "authenticated"] = some demoReady)
  ⟨hr, rfl, (heartbeat_timers_exclusive demoReady hr).2.1 rfl⟩

end PushNotifications

namespace PushNotifications

/-! ## Opening the transport -/

/-- C16, as the code has it: the client does not look at the endpoint URL.  For
every client state `setup()` and `reconnectToWebSocket()` log the `close` of the
transport, when there is one, and then one `open` of the URL the capabilities give;
when that URL is empty they log an `open` of the empty URL. -/
theorem setup_opens_any_url (s : Client) :
    (setup s).log = s.log ++ (if s.webSocket.isSome then [Effect.close] else []) ++
      [Effect.openUrl s.account.pushNotificationsWebSocketUrl] ∧
    (reconnectToWebSocket s).log
      = s.log ++ (if s.webSocket.isSome then [Effect.close] else []) ++
        [Effect.openUrl s.account.pushNotificationsWebSocketUrl] ∧
    (s.account.pushNotificationsWebSocketUrl = "" →
      (setup s).log.getLast? = some (Effect.openUrl "") ∧
      (reconnectToWebSocket s).log.getLast? = some (Effect.openUrl "")) := by
  refine ⟨by simp [setup_eq], by simp [reconnectToWebSocket_eq], ?_⟩
  intro h
  simp [setup_eq, reconnectToWebSocket_eq, h]

/-- C16 at a fresh client of an account without an endpoint. -/
theorem setup_opens_any_url_witness :
    noEndpointClient.account.pushNotificationsWebSocketUrl = "" ∧
    (setup noEndpointClient).log.getLast? = some (Effect.openUrl "") ∧
    (reconnectToWebSocket noEndpointClient).log.getLast? = some (Effect.openUrl "") :=
  ⟨rfl, (setup_opens_any_url noEndpointClient).2.2 rfl⟩

/-- C16 fails on the code: a fresh client of an account whose endpoint URL is empty
opens the transport on the empty URL in `setup()`, and closes and opens it again in
`reconnectToWebSocket()`. -/
theorem empty_endpoint_is_opened_counterexample :
    noEndpointAccount.pushNotificationsWebSocketUrl = "" ∧
    (run noEndpointClient [Event.setup]).map (fun s => s.log) = some [Effect.openUrl ""] ∧
    (reconnectToWebSocket (setup noEndpointClient)).log
      = [Effect.openUrl "", Effect.close, Effect.openUrl ""] :=
  ⟨rfl, rfl, rfl⟩

/-! ## The heartbeat interval -/

/-- C17, as the code has it: for every client state and every interval `d` below
2^31, `setPingTimeoutInterval(d)` sets `_pingTimeoutInterval` to `d`, stops the
reply-timeout timer, leaves the idle timer running, single-shot, with interval `d`,
and changes nothing else: ready flag, failure counter, reconnect timer, reconnect
interval and log are as before.  The idle timer can then time out; if the client has
a socket the probe is sent, and after the probe the reply-timeout timer runs,
single-shot, with the same interval `d`. -/
theorem setPingTimeoutInterval_rearms (s : Client) (d : Nat) (hd : d < 2 ^ 31) :
    setPingTimeoutInterval s d =
      { s with
        pingTimeoutInterval := d
        pingTimeoutTimer := { s.pingTimeoutTimer with active := false }
        pingTimer := { active := true, interval := (d : Int), singleShot := true }
        pingTimerConnected := true } ∧
    enabled (setPingTimeoutInterval s d) Event.pingTimerTimeout = true ∧
    (∀ s', step (setPingTimeoutInterval s d) Event.pingTimerTimeout = some s' →
      s'.pingTimeoutTimer = { active := true, interval := (d : Int), singleShot := true } ∧
      s'.log = s.log ++ [Effect.ping (timeoutPingPayload s)]) ∧
    (s.webSocket.isSome = true →
      ∃ s', step (setPingTimeoutInterval s d) Event.pingTimerTimeout = some s') := by
  have hmod : d % 2 ^ 32 = d := Nat.mod_eq_of_lt (by omega)
  have hint : uint32ToInt d = (d : Int) := uint32ToInt_of_lt hd
  have hnn : (0 : Int) ≤ (d : Int) := Int.ofNat_nonneg d
  have heq : setPingTimeoutInterval s d =
      { s with
        pingTimeoutInterval := d
        pingTimeoutTimer := { s.pingTimeoutTimer with active := false }
        pingTimer := { active := true, interval := (d : Int), singleShot := true }
        pingTimerConnected := true } := by
    simp only [setPingTimeoutInterval, startPingTimeoutTimer_eq, QTimer.stop, hmod, hint]
    simp [hnn]
  refine ⟨heq, ?_, ?_, ?_⟩
  · rw [heq]; rfl
  · intro s' hs
    rw [heq] at hs
    simp only [step, pingTimerTimeout, if_true] at hs
    rw [pingWebSocketServer_eq hs]
    simp [timeoutPingPayload, hint, hnn]
  · intro hws
    rw [heq]
    cases h : s.webSocket with
    | none => simp [h] at hws
    | some ws => simp [step, pingTimerTimeout, pingWebSocketServer, h]

/-- C17 at `demoClient` once it is ready, with interval 0. -/
theorem setPingTimeoutInterval_rearms_witness :
    (0 : Nat) < 2 ^ 31 ∧
    demoReady.webSocket.isSome = true ∧
    (setPingTimeoutInterval demoReady 0).pingTimer
      = { active := true, interval := 0, singleShot := true } ∧
    ∃ s', step (setPingTimeoutInterval demoReady 0) Event.pingTimerTimeout = some s' :=
  have h := setPingTimeoutInterval_rearms demoReady 0 (by decide)
  ⟨by decide, rfl, rfl, h.2.2.2 rfl⟩

/-- C17 fails on the code: `setPingTimeoutInterval(3000000000)` on `demoClient` once it
is ready stores the interval and stops the reply-timeout timer, but the idle timer
gets the interval -1294967296 and does not run: neither heartbeat timer can time
out. -/
theorem long_heartbeat_interval_counterexample :
    (setPingTimeoutInterval demoReady longInterval).pingTimeoutInterval = 3000000000 ∧
    (setPingTimeoutInterval demoReady longInterval).pingTimer
      = { active := false, interval := -1294967296, singleShot := true } ∧
    (setPingTimeoutInterval demoReady longInterval).pingTimeoutTimer.active = false ∧
    enabled (setPingTimeoutInterval demoReady longInterval) Event.pingTimerTimeout = false ∧
    enabled (setPingTimeoutInterval demoReady longInterval) Event.pingTimeoutTimerTimeout
      = false := by
  decide

/-! ## Setup twice -/

/-- C18: for every client state, a second `setup()` changes no member variable: the
state after `setup(); setup()` is the state after one `setup()` but for the log,
which has one more `close` followed by one more `open`.  After `setup()` the failure
counter is 0, `isReady()` is false, the idle, reply-timeout and reconnect timers are
stopped and the socket exists.  `setup()` is `openWebSocket()` after
`closeWebSocket()`: its `open` is the next effect after those of `closeWebSocket()`,
which closes the transport whenever there is one. -/
theorem setup_idempotent (s : Client) :
    setup (setup s) =
      { setup s with
        log := (setup s).log ++
          [Effect.close, Effect.openUrl s.account.pushNotificationsWebSocketUrl] } ∧
    (setup s).failedAuthenticationAttemptsCount = 0 ∧
    isReady (setup s) = false ∧
    (setup s).pingTimer.active = false ∧
    (setup s).pingTimeoutTimer.active = false ∧
    reconnectTimerActive (setup s) = false ∧
    (setup s).webSocket.isSome = true ∧
    setup s = openWebSocket (closeWebSocket { s with failedAuthenticationAttemptsCount := 0 }) ∧
    (closeWebSocket { s with failedAuthenticationAttemptsCount := 0 }).log
      = s.log ++ (if s.webSocket.isSome then [Effect.close] else []) ∧
    (setup s).log = (closeWebSocket { s with failedAuthenticationAttemptsCount := 0 }).log ++
      [Effect.openUrl s.account.pushNotificationsWebSocketUrl] := by
  refine ⟨?_, ?_, ?_, ?_, ?_, ?_, ?_, rfl, ?_, ?_⟩
  · obtain ⟨self, account, ws, cnt, rt, k, ri, rdy, pt, ptc, pi, ptt, pttc, pong, log⟩ := s
    cases ws <;> cases rt <;> simp [setup_eq, QTimer.stop]
  · simp [setup_eq]
  · simp [setup_eq, isReady]
  · simp [setup_eq, QTimer.stop]
  · simp [setup_eq, QTimer.stop]
  · cases hrt : s.reconnectTimer <;> simp [setup_eq, reconnectTimerActive, hrt, QTimer.stop]
  · simp [setup_eq]
  · simp [closeWebSocket_eq]
  · simp [setup_eq, closeWebSocket_eq]

end PushNotifications

namespace OCC

namespace UserStatus

/-! ## The status of the user -/

/-- C19: for every string `s`, `stringToEnum(s)` depends on the lower-case form of
`s` only: it is `Online`, `Away`, `DoNotDisturb`, `Offline` or `Invisible` when that
form is "online", "away", "dnd", "offline" or "invisible", and `Online` for every
other `s`, the empty string included.  So "" gives `Online` and "DND" gives
`DoNotDisturb`. -/
theorem stringToEnum_lower_case (s : String) :
    stringToEnum s =
      (if toLower s = "online" then Status.Online
       else if toLower s = "away" then Status.Away
       else if toLower s = "dnd" then Status.DoNotDisturb
       else if toLower s = "offline" then Status.Offline
       else if toLower s = "invisible" then Status.Invisible
       else Status.Online) ∧
    stringToEnum "" = Status.Online ∧
    stringToEnum "DND" = Status.DoNotDisturb := by
  refine ⟨?_, by decide, by decide⟩
  by_cases h0 : s = ""
  · subst h0; decide
  · simp only [stringToEnum, h0, if_false]
    by_cases h1 : toLower s = "online"
    · simp [h1, List.lookup]
    by_cases h2 : toLower s = "dnd"
    · simp [h2, List.lookup]
    by_cases h3 : toLower s = "away"
    · simp [h3, List.lookup]
    by_cases h4 : toLower s = "offline"
    · simp [h4, List.lookup]
    by_cases h5 : toLower s = "invisible"
    · simp [h5, List.lookup]
    · have e1 : (toLower s == "online") = false := beq_eq_false_iff_ne.mpr h1
      have e2 : (toLower s == "dnd") = false := beq_eq_false_iff_ne.mpr h2
      have e3 : (toLower s == "away") = false := beq_eq_false_iff_ne.mpr h3
      have e4 : (toLower s == "offline") = false := beq_eq_false_iff_ne.mpr h4
      have e5 : (toLower s == "invisible") = false := beq_eq_false_iff_ne.mpr h5
      simp [h1, h2, h3, h4, h5, e1, e2, e3, e4, e5, List.lookup]

end UserStatus

end OCC

namespace OCC

namespace UserStatus

/-! ## The text shown for the status -/

theorem trimmed_head_not_space (s : String) (c : Char)
    (h : (trimmed s).data.head? = some c) : isSpace c = false := by
  have hp : List.rdropWhile isSpace (s.data.dropWhile isSpace) <+: s.data.dropWhile isSpace :=
    List.rdropWhile_prefix isSpace (s.data.dropWhile isSpace)
  obtain ⟨r, hr⟩ := hp
  have h' : (List.rdropWhile isSpace (s.data.dropWhile isSpace)).head? = some c := h
  cases hl : List.rdropWhile isSpace (s.data.dropWhile isSpace) with
  | nil => rw [hl] at h'; cases h'
  | cons a t =>
    rw [hl] at h' hr
    simp only [List.head?_cons, Option.some.injEq] at h'
    subst h'
    have hn := List.head?_dropWhile_not isSpace s.data
    rw [← hr] at hn
    simpa using hn

theorem trimmed_last_not_space (s : String) (c : Char)
    (h : (trimmed s).data.getLast? = some c) : isSpace c = false := by
  have h' : (List.rdropWhile isSpace (s.data.dropWhile isSpace)).getLast? = some c := h
  have hne : List.rdropWhile isSpace (s.data.dropWhile isSpace) ≠ [] := by
    intro h0; rw [h0] at h'; cases h'
  have hn := List.rdropWhile_last_not isSpace (s.data.dropWhile isSpace) hne
  rw [List.getLast?_eq_getLast _ hne] at h'
  simp only [Option.some.injEq] at h'
  rw [h'] at hn
  simpa using hn

/-- C20: let the `ocs.data` object of the reply hold the strings `icon`, `message`
and `status`.  After `slotFetchUserStatusFinished`, `status()` is
`stringToEnum(status)` and `message()` is the trimmed form of `icon`, a space, and
`t`, where `t` is `message` when that is not empty and otherwise the label of the
status.  The labels are the translations of "Online", "Away", "Do not disturb", and
of "Offline" for both `Offline` and `Invisible`.  The first and the last character
of `message()`, when it has any, are not white space. -/
theorem message_after_fetch (tr : String → String) (u : UserStatus) (json : QJsonDocument)
    (statusCode : Int) (data : QJsonObject) (icon message status : String)
    (hdata : ((json.object.value "ocs").toObject).value "data" = QJsonValue.object data)
    (hicon : data.value "icon" = QJsonValue.string icon)
    (hmessage : data.value "message" = QJsonValue.string message)
    (hstatus : data.value "status" = QJsonValue.string status) :
    UserStatus.message (slotFetchUserStatusFinished tr u json statusCode)
      = trimmed (icon ++ " " ++
          (if message = "" then enumToUserString tr (stringToEnum status) else message)) ∧
    UserStatus.status (slotFetchUserStatusFinished tr u json statusCode)
      = stringToEnum status ∧
    enumToUserString tr Status.Online = tr "Online" ∧
    enumToUserString tr Status.Away = tr "Away" ∧
    enumToUserString tr Status.DoNotDisturb = tr "Do not disturb" ∧
    enumToUserString tr Status.Offline = tr "Offline" ∧
    enumToUserString tr Status.Invisible = tr "Offline" ∧
    (∀ c, (UserStatus.message (slotFetchUserStatusFinished tr u json statusCode)).data.head?
      = some c → isSpace c = false) ∧
    (∀ c, (UserStatus.message (slotFetchUserStatusFinished tr u json statusCode)).data.getLast?
      = some c → isSpace c = false) := by
  refine ⟨?_, ?_, rfl, rfl, rfl, rfl, rfl, fun c h => trimmed_head_not_space _ c h,
    fun c h => trimmed_last_not_space _ c h⟩
  · simp only [UserStatus.message, slotFetchUserStatusFinished, hdata]
    simp only [QJsonValue.toObject, hicon, hmessage, hstatus, QJsonValue.toString]
  · simp only [UserStatus.status, slotFetchUserStatusFinished, hdata]
    simp only [QJsonValue.toObject, hstatus, QJsonValue.toString]

/-- C20 at the payloads with a moon and "DND", and with "brb" and "away", when no
translation is installed. -/
theorem message_after_fetch_witness :
    UserStatus.message (slotFetchUserStatusFinished id demoUserStatus
      (replyDocument (payload "🌙" "" "DND")) 200) = "🌙 Do not disturb" ∧
    UserStatus.message (slotFetchUserStatusFinished id demoUserStatus
      (replyDocument (payload "" "brb" "away")) 200) = "brb" :=
  ⟨(message_after_fetch id demoUserStatus (replyDocument (payload "🌙" "" "DND")) 200
      (payload "🌙" "" "DND") "🌙" "" "DND" rfl rfl rfl rfl).1.trans (by decide),
    (message_after_fetch id demoUserStatus (replyDocument (payload "" "brb" "away")) 200
      (payload "" "brb" "away") "" "brb" "away" rfl rfl rfl rfl).1.trans (by decide)⟩

end UserStatus

end OCC

namespace PushNotifications

/-! ## The idle timer and the ready flag -/

theorem idleTimerInv_of_same {s s' : Client} (h1 : s'.pingTimer = s.pingTimer)
    (h2 : s'.pingTimerConnected = s.pingTimerConnected)
    (h3 : s'.pingTimeoutInterval = s.pingTimeoutInterval) (h : IdleTimerInv s) :
    IdleTimerInv s' := by
  unfold IdleTimerInv at *
  rw [h1, h2, h3]; exact h

theorem idleTimerInv_of_stopped {s : Client} (h : s.pingTimer.active = false) :
    IdleTimerInv s := by
  intro h'; rw [h] at h'; cases h'

theorem idleTimerInv_of_started {s : Client} (h1 : s.pingTimerConnected = true)
    (h2 : s.pingTimer.singleShot = true)
    (h3 : s.pingTimer.interval = uint32ToInt s.pingTimeoutInterval)
    (h4 : s.pingTimer.active = decide (0 ≤ uint32ToInt s.pingTimeoutInterval)) :
    IdleTimerInv s := by
  intro ha
  rw [h4] at ha
  exact ⟨h1, h2, h3, of_decide_eq_true ha⟩

theorem expire_inactive_of_idleTimerInv {s : Client} (h : IdleTimerInv s) :
    s.pingTimer.expire.active = false := by
  unfold IdleTimerInv at h
  cases ha : s.pingTimer.active with
  | false => cases hs : s.pingTimer.singleShot <;> simp [QTimer.expire, QTimer.stop, hs, ha]
  | true => simp [QTimer.expire, QTimer.stop, (h ha).2.1]

theorem idleTimerInv_step {s s' : Client} (e : Event) (hinv : IdleTimerInv s)
    (hstep : step s e = some s') : IdleTimerInv s' := by
  cases e with
  | setup =>
    simp only [step, Option.some.injEq] at hstep; subst hstep
    exact idleTimerInv_of_stopped (by simp [setup_eq, QTimer.stop])
  | setReconnectTimerInterval i =>
    simp only [step, Option.some.injEq] at hstep; subst hstep
    exact idleTimerInv_of_same rfl rfl rfl hinv
  | setPingTimeoutInterval i =>
    simp only [step, Option.some.injEq] at hstep; subst hstep
    exact idleTimerInv_of_started
      (by simp [setPingTimeoutInterval, startPingTimeoutTimer_eq])
      (by simp [setPingTimeoutInterval, startPingTimeoutTimer_eq])
      (by simp only [setPingTimeoutInterval, startPingTimeoutTimer_eq])
      (by simp only [setPingTimeoutInterval, startPingTimeoutTimer_eq])
  | webSocketConnected =>
    simp only [step, onWebSocketConnected, authenticateOnWebSocket] at hstep
    cases hws : s.webSocket <;> simp [hws, perform] at hstep
    subst hstep
    exact idleTimerInv_of_same rfl rfl rfl hinv
  | webSocketDisconnected =>
    simp only [step, Option.some.injEq] at hstep; subst hstep
    exact hinv
  | webSocketTextMessageReceived m =>
    simp only [step, Option.some.injEq] at hstep; subst hstep
    unfold onWebSocketTextMessageReceived
    split
    · exact idleTimerInv_of_same rfl rfl rfl hinv
    split
    · exact idleTimerInv_of_same rfl rfl rfl hinv
    split
    · exact idleTimerInv_of_same rfl rfl rfl hinv
    split
    · exact idleTimerInv_of_started (by simp [handleAuthenticated_eq])
        (by simp [handleAuthenticated_eq]) (by simp only [handleAuthenticated_eq])
        (by simp only [handleAuthenticated_eq])
    split
    · rw [handleInvalidCredentials_eq]
      split
      · exact idleTimerInv_of_stopped (by simp [QTimer.stop])
      · exact idleTimerInv_of_same rfl rfl rfl hinv
    · exact hinv
  | webSocketError e =>
    simp only [step, Option.some.injEq] at hstep; subst hstep
    unfold onWebSocketError
    split
    · exact hinv
    · exact idleTimerInv_of_same rfl rfl rfl hinv
  | webSocketSslErrors l =>
    simp only [step, Option.some.injEq] at hstep; subst hstep
    exact idleTimerInv_of_same rfl rfl rfl hinv
  | webSocketPong t p =>
    simp only [step, Option.some.injEq] at hstep; subst hstep
    rw [onWebSocketPongReceived, handleTimeoutPong_eq]
    split
    · exact idleTimerInv_of_started rfl rfl rfl rfl
    · exact hinv
  | pingTimerTimeout =>
    have hx := expire_inactive_of_idleTimerInv hinv
    simp only [step, pingTimerTimeout] at hstep
    split at hstep
    · rw [pingWebSocketServer_eq hstep]
      exact idleTimerInv_of_stopped hx
    · simp only [Option.some.injEq] at hstep; subst hstep
      exact idleTimerInv_of_stopped hx
  | pingTimeoutTimerTimeout =>
    simp only [step, Option.some.injEq] at hstep; subst hstep
    have hkeep : IdleTimerInv { s with pingTimeoutTimer := s.pingTimeoutTimer.expire } :=
      idleTimerInv_of_same rfl rfl rfl hinv
    unfold pingTimeoutTimerTimeout onPingTimedOut
    simp only
    split
    · split
      · exact hkeep
      · exact idleTimerInv_of_stopped (by simp [setup_eq, QTimer.stop])
    · exact hkeep
  | reconnectTimerTimeout =>
    simp only [step, Option.some.injEq] at hstep; subst hstep
    unfold reconnectTimerTimeout
    split
    · exact hinv
    · simp only
      cases s.reconnectTimerConnections with
      | zero => exact idleTimerInv_of_same rfl rfl rfl hinv
      | succ n =>
        rw [iterate_reconnectToWebSocket]
        exact idleTimerInv_of_stopped (by simp [reconnectToWebSocket_eq, QTimer.stop])

theorem reachable_idleTimerInv {s : Client} (h : Reachable s) : IdleTimerInv s := by
  induction h with
  | construct self account r p => exact idleTimerInv_of_stopped rfl
  | step e _ _ hstep ih => exact idleTimerInv_step e ih hstep

end PushNotifications

namespace PushNotifications

theorem readyInv_of_same {s s' : Client} (h0 : s'.isReady = s.isReady)
    (h1 : s'.pingTimer = s.pingTimer) (h2 : s'.pingTimeoutTimer = s.pingTimeoutTimer)
    (h3 : s'.pingTimeoutInterval = s.pingTimeoutInterval)
    (h : ReadyInv s) : ReadyInv s' := by
  unfold ReadyInv at *
  rw [h0, h1, h2, h3]; exact h

theorem readyInv_of_not_ready {s : Client} (h : s.isReady = false) : ReadyInv s := by
  intro h'; rw [h] at h'; cases h'

theorem readyInv_of_idle {s : Client}
    (h : s.pingTimer.active = decide (0 ≤ uint32ToInt s.pingTimeoutInterval)) : ReadyInv s :=
  fun _ hH => Or.inl (h.trans (decide_eq_true hH))

theorem readyInv_of_timeout {s : Client}
    (h : s.pingTimeoutTimer.active = decide (0 ≤ uint32ToInt s.pingTimeoutInterval)) :
    ReadyInv s :=
  fun _ hH => Or.inr (h.trans (decide_eq_true hH))

theorem readyInv_step {s s' : Client} (e : Event) (hidle : IdleTimerInv s)
    (hto : PingTimeoutInv s) (hinv : ReadyInv s) (hstep : step s e = some s') :
    ReadyInv s' := by
  cases e with
  | setup =>
    simp only [step, Option.some.injEq] at hstep; subst hstep
    exact readyInv_of_not_ready (by simp [setup_eq])
  | setReconnectTimerInterval i =>
    simp only [step, Option.some.injEq] at hstep; subst hstep
    exact readyInv_of_same rfl rfl rfl rfl hinv
  | setPingTimeoutInterval i =>
    simp only [step, Option.some.injEq] at hstep; subst hstep
    exact readyInv_of_idle (by simp only [setPingTimeoutInterval, startPingTimeoutTimer_eq])
  | webSocketConnected =>
    simp only [step, onWebSocketConnected, authenticateOnWebSocket] at hstep
    cases hws : s.webSocket <;> simp [hws, perform] at hstep
    subst hstep
    exact readyInv_of_same rfl rfl rfl rfl hinv
  | webSocketDisconnected =>
    simp only [step, Option.some.injEq] at hstep; subst hstep
    exact hinv
  | webSocketTextMessageReceived m =>
    simp only [step, Option.some.injEq] at hstep; subst hstep
    unfold onWebSocketTextMessageReceived
    split
    · exact readyInv_of_same rfl rfl rfl rfl hinv
    split
    · exact readyInv_of_same rfl rfl rfl rfl hinv
    split
    · exact readyInv_of_same rfl rfl rfl rfl hinv
    split
    · exact readyInv_of_idle (by simp only [handleAuthenticated_eq])
    split
    · rw [handleInvalidCredentials_eq]
      split
      · exact readyInv_of_not_ready rfl
      · exact readyInv_of_same rfl rfl rfl rfl hinv
    · exact hinv
  | webSocketError e =>
    simp only [step, Option.some.injEq] at hstep; subst hstep
    unfold onWebSocketError
    split
    · exact hinv
    · exact readyInv_of_not_ready rfl
  | webSocketSslErrors l =>
    simp only [step, Option.some.injEq] at hstep; subst hstep
    exact readyInv_of_not_ready rfl
  | webSocketPong t p =>
    simp only [step, Option.some.injEq] at hstep; subst hstep
    rw [onWebSocketPongReceived, handleTimeoutPong_eq]
    split
    · exact readyInv_of_idle rfl
    · exact hinv
  | pingTimerTimeout =>
    simp only [step, pingTimerTimeout] at hstep
    split at hstep
    · rw [pingWebSocketServer_eq hstep]
      exact readyInv_of_timeout rfl
    · rename_i hc
      simp only [Option.some.injEq] at hstep; subst hstep
      intro hr hH
      rcases hinv hr hH with h | h
      · exact absurd (hidle h).1 hc
      · exact Or.inr h
  | pingTimeoutTimerTimeout =>
    simp only [step, Option.some.injEq] at hstep; subst hstep
    cases ha : s.pingTimeoutTimer.active with
    | true =>
      obtain ⟨h1, h2, -⟩ := hto ha
      exact readyInv_of_not_ready
        (by simp [pingTimeoutTimerTimeout, onPingTimedOut, h1, h2, setup_eq])
    | false =>
      have hkeep : ReadyInv { s with pingTimeoutTimer := s.pingTimeoutTimer.expire } := by
        intro hr hH
        rcases hinv hr hH with h | h
        · exact Or.inl h
        · rw [ha] at h; cases h
      unfold pingTimeoutTimerTimeout onPingTimedOut
      simp only
      split
      · split
        · exact hkeep
        · exact readyInv_of_not_ready (by simp [setup_eq])
      · exact hkeep
  | reconnectTimerTimeout =>
    simp only [step, Option.some.injEq] at hstep; subst hstep
    unfold reconnectTimerTimeout
    split
    · exact hinv
    · simp only
      cases s.reconnectTimerConnections with
      | zero => exact readyInv_of_same rfl rfl rfl rfl hinv
      | succ n =>
        rw [iterate_reconnectToWebSocket]
        exact readyInv_of_not_ready (by simp [reconnectToWebSocket_eq])

theorem reachable_readyInv {s : Client} (h : Reachable s) : ReadyInv s := by
  induction h with
  | construct self account r p => exact readyInv_of_not_ready rfl
  | step e hs _ hstep ih =>
    exact readyInv_step e (reachable_idleTimerInv hs) (reachable_inv hs) ih hstep

/-- C24, as the code has it: in every reachable state in which `isReady()` is true and
the heartbeat interval is below 2^31, exactly one of the idle timer and the
reply-timeout timer is running. -/
theorem ready_has_one_heartbeat_timer (s : Client) (hr : Reachable s)
    (hready : isReady s = true) (hH : s.pingTimeoutInterval < 2 ^ 31) :
    (s.pingTimer.active = true ∧ s.pingTimeoutTimer.active = false) ∨
    (s.pingTimer.active = false ∧ s.pingTimeoutTimer.active = true) := by
  have h1 := reachable_readyInv hr hready (uint32ToInt_nonneg_of_lt hH)
  have h2 := (reachable_heartbeatInv hr).2
  cases ha : s.pingTimer.active <;> cases hb : s.pingTimeoutTimer.active <;>
    simp [ha, hb] at h1 h2 ⊢

/-- C24 at `demoClient` after its first probe: ready, the idle timer stopped, the
reply-timeout timer running. -/
theorem ready_has_one_heartbeat_timer_witness :
    Reachable demoProbing ∧ isReady demoProbing = true ∧
    demoProbing.pingTimeoutInterval < 2 ^ 31 ∧
    ((demoProbing.pingTimer.active = true ∧ demoProbing.pingTimeoutTimer.active = false) ∨
      (demoProbing.pingTimer.active = false ∧ demoProbing.pingTimeoutTimer.active = true)) :=
  have hr : Reachable demoProbing :=
    reachable_run firstProbe (Reachable.construct 4096 demoAccount 20000 30000) rfl
  ⟨hr, rfl, by decide, ready_has_one_heartbeat_timer demoProbing hr rfl (by decide)⟩

/-- C24 fails on the code: the heartbeat interval of `demoClient` is set to 3000000000
and the client then authenticates.  The state is reachable and `isReady()` is true,
but the idle timer got the interval -1294967296: neither the idle timer nor the
reply-timeout timer is running, and neither can time out. -/
theorem ready_without_heartbeat_counterexample :
    run demoClient [Event.setPingTimeoutInterval longInterval, Event.setup,
      Event.webSocketConnected, Event.webSocketTextMessageReceived "authenticated"]
      = some demoLongHeartbeat ∧
    Reachable demoLongHeartbeat ∧
    isReady demoLongHeartbeat = true ∧
    demoLongHeartbeat.pingTimeoutInterval = 3000000000 ∧
    demoLongHeartbeat.pingTimer
      = { active := false, interval := -1294967296, singleShot := true } ∧
    demoLongHeartbeat.pingTimeoutTimer.active = false ∧
    enabled demoLongHeartbeat Event.pingTimerTimeout = false ∧
    enabled demoLongHeartbeat Event.pingTimeoutTimerTimeout = false :=
  ⟨by decide,
    reachable_run _ (Reachable.construct 4096 demoAccount 20000 30000)
      (by decide : run demoClient [Event.setPingTimeoutInterval longInterval, Event.setup,
        Event.webSocketConnected, Event.webSocketTextMessageReceived "authenticated"]
        = some demoLongHeartbeat),
    by decide, by decide, by decide, by decide, by decide, by decide⟩

end PushNotifications

namespace PushNotifications

/-! ## The heartbeat probe -/

/-- C22: let the client have a socket.  The slot `pingWebSocketServer` clears the
pong flag, makes the reply-timeout timer single-shot, gives it `_pingTimeoutInterval`
narrowed to `int` and starts it, and logs exactly one ping whose payload is
`timeoutPingPayload()`: no text message, no signal.  In a reachable state in which
the idle timer runs, its interval is that narrowed `_pingTimeoutInterval` and is not
negative; its timeout stops it and runs the slot, after which the reply-timeout
timer runs, single-shot, with the interval of the idle timer.  The payload is the
same after every run of the client. -/
theorem idle_timeout_sends_probe (s : Client) (hws : s.webSocket.isSome = true) :
    pingWebSocketServer s = some
      { s with
        timeoutPongReceivedFromWebSocketServer := false
        pingTimeoutTimer :=
          { active := decide (0 ≤ uint32ToInt s.pingTimeoutInterval)
            interval := uint32ToInt s.pingTimeoutInterval
            singleShot := true }
        pingTimeoutTimerConnected := true
        log := s.log ++ [Effect.ping (timeoutPingPayload s)] } ∧
    (Reachable s → enabled s Event.pingTimerTimeout = true →
      s.pingTimer.interval = uint32ToInt s.pingTimeoutInterval ∧
      0 ≤ s.pingTimer.interval ∧
      step s Event.pingTimerTimeout = some
        { s with
          pingTimer := { s.pingTimer with active := false }
          timeoutPongReceivedFromWebSocketServer := false
          pingTimeoutTimer :=
            { active := true, interval := s.pingTimer.interval, singleShot := true }
          pingTimeoutTimerConnected := true
          log := s.log ++ [Effect.ping (timeoutPingPayload s)] }) ∧
    textMessages (s.log ++ [Effect.ping (timeoutPingPayload s)]) = textMessages s.log ∧
    signals (s.log ++ [Effect.ping (timeoutPingPayload s)]) = signals s.log ∧
    (∀ es s', run s es = some s' → timeoutPingPayload s' = timeoutPingPayload s) := by
  have hslot : ∀ x : Client, x.webSocket.isSome = true → pingWebSocketServer x = some
      { x with
        timeoutPongReceivedFromWebSocketServer := false
        pingTimeoutTimer :=
          { active := decide (0 ≤ uint32ToInt x.pingTimeoutInterval)
            interval := uint32ToInt x.pingTimeoutInterval
            singleShot := true }
        pingTimeoutTimerConnected := true
        log := x.log ++ [Effect.ping (timeoutPingPayload x)] } := by
    intro x hx
    cases hs : pingWebSocketServer x with
    | none =>
      unfold pingWebSocketServer at hs
      cases hw : x.webSocket <;> simp [hw] at hs hx
    | some x' => rw [pingWebSocketServer_eq hs]
  refine ⟨hslot s hws, ?_, ?_, ?_, ?_⟩
  · intro hr ha
    have ha' : s.pingTimer.active = true := ha
    obtain ⟨hc, hsingle, hint, hnn⟩ := reachable_idleTimerInv hr ha'
    refine ⟨hint, hint ▸ hnn, ?_⟩
    have hx : s.pingTimer.expire = { s.pingTimer with active := false } := by
      simp [QTimer.expire, QTimer.stop, hsingle]
    simp only [step, pingTimerTimeout, hc, if_true, hx]
    exact (hslot _ (by exact hws)).trans (by simp [timeoutPingPayload, hint, hnn])
  · simp [textMessages_append, textMessages]
  · simp [signals_append, signals]
  · intro es s' h
    simp [timeoutPingPayload, run_self es h]

/-- C22 at `demoClient` once it is ready. -/
theorem idle_timeout_sends_probe_witness :
    demoReady.webSocket.isSome = true ∧ Reachable demoReady ∧
    enabled demoReady Event.pingTimerTimeout = true ∧
    (step demoReady Event.pingTimerTimeout).map (fun s => pingPayloads s.log)
      = some [demoPayload] ∧
    demoReady.pingTimer.interval = uint32ToInt demoReady.pingTimeoutInterval :=
  have hr : Reachable demoReady :=
    reachable_run _ (Reachable.construct 4096 demoAccount 20000 30000)
      (rfl : run demoClient [Event.setup, Event.webSocketConnected,
        Event.webSocketTextMessageReceived "authenticated"] = some demoReady)
  ⟨rfl, hr, rfl, rfl, ((idle_timeout_sends_probe demoReady rfl).2.1 hr rfl).1⟩

end PushNotifications

namespace PushNotifications

/-! ## One timeout of the reconnect timer -/

/-- C23 on the code, at `demoClient`.  After the first rejected attempt one lambda is
connected to the reconnect timer, and its timeout logs one `close` and one `open`.
After the second rejected attempt `tryReconnectToWebSocket` has connected a second
lambda: the timer is running, and its one timeout runs `reconnectToWebSocket` twice,
logging `close`, `open`, `close`, `open`. -/
theorem reconnect_timeout_runs_every_lambda :
    (run demoClient [Event.setup, Event.webSocketConnected,
        Event.webSocketTextMessageReceived invalidCredentialsMessage]).map
      (fun s => (s.reconnectTimerConnections, (reconnectTimerTimeout s).log.drop s.log.length))
      = some (1, [Effect.close, Effect.openUrl "wss://cloud.example/push/ws"]) ∧
    run demoClient twoRejections = some demoTwiceRejected ∧
    demoTwiceRejected.reconnectTimerConnections = 2 ∧
    enabled demoTwiceRejected Event.reconnectTimerTimeout = true ∧
    (step demoTwiceRejected Event.reconnectTimerTimeout).map
      (fun s => s.log.drop demoTwiceRejected.log.length)
      = some [Effect.close, Effect.openUrl "wss://cloud.example/push/ws",
          Effect.close, Effect.openUrl "wss://cloud.example/push/ws"] :=
  ⟨rfl, rfl, rfl, rfl, rfl⟩

/-! ## The assertion of `pingWebSocketServer` -/

/-- C25 on the code, at `demoClient`: when `setPingTimeoutInterval(0)` is the first
call on the fresh client, the state is reachable, the idle timer runs and can time
out, and there is no socket; the timeout then fails in `pingWebSocketServer`. -/
theorem ping_without_socket :
    run demoClient [Event.setPingTimeoutInterval 0] = some demoIntervalFirst ∧
    Reachable demoIntervalFirst ∧
    demoIntervalFirst.pingTimer.active = true ∧
    demoIntervalFirst.webSocket = none ∧
    enabled demoIntervalFirst Event.pingTimerTimeout = true ∧
    step demoIntervalFirst Event.pingTimerTimeout = none :=
  ⟨rfl, reachable_run _ (Reachable.construct 4096 demoAccount 20000 30000)
      (rfl : run demoClient [Event.setPingTimeoutInterval 0] = some demoIntervalFirst),
    rfl, rfl, rfl, rfl⟩

end PushNotifications

namespace OCC

namespace UserStatus

/-! ## A fetch that did not succeed -/

/-- C21 on the code, at the status code 404 and a document whose `ocs.data` holds the
message "brb" and the status "away": the document is read all the same, `status()`
is `Away` and `message()` is "brb".  With the same status code and an empty
document the default values are used: `Online` and "Online". -/
theorem failed_fetch_reads_the_document :
    status (slotFetchUserStatusFinished id demoUserStatus
      (replyDocument (payload "" "brb" "away")) 404) = Status.Away ∧
    message (slotFetchUserStatusFinished id demoUserStatus
      (replyDocument (payload "" "brb" "away")) 404) = "brb" ∧
    status (slotFetchUserStatusFinished id demoUserStatus QJsonDocument.empty 404)
      = Status.Online ∧
    message (slotFetchUserStatusFinished id demoUserStatus QJsonDocument.empty 404)
      = "Online" := by
  decide

end UserStatus

end OCC
